import Mathlib

/-!
Verification of the WeatherLink normalization core (`weatherlink_2`).

The development shallowly embeds the data-normalization engine of the
integration: the `_preprocess` function of `__init__.py` (both the legacy
v1 shape and the modern v2 multi-sensor shape) and the derived-value and
freshness logic of `sensor.py` (`native_value` compass bucketing and
pressure-trend classification, and the `available` property).

Modelling conventions:
* JSON scalar values are `JVal` (rationals for numbers, strings, and an
  explicit `null`).  Machine floats of the source are modelled as exact
  rationals.
* Python dicts are modelled as association lists where an assignment
  prepends a binding and a lookup takes the newest binding; this is
  observationally the same as in-place overwrite under `dget`.
* Fallible Python code (a `KeyError` on a missing mandatory key, an
  `IndexError` on `data[0]` of an empty list, a `TypeError` from
  arithmetic on a string or from `utc_from_timestamp(None)`) is modelled
  with `Option`; any exception escapes `_preprocess` (there is no
  try/except inside it), so `none` means the whole pass produced no
  snapshot.
* The string values of the `DataKey` enumeration live in `const.py`,
  which is not part of the sources provided; they are modelled as
  distinct canonical strings (only their identity and distinctness is
  used, which the enumeration guarantees).
* Python standard-library parsing (`parsedate_tz`/`mktime_tz` for
  RFC-822 dates, `float(...)` on strings) is external to the repository
  and is passed in as an explicit function parameter.
-/

/-- A JSON scalar value as it appears in the upstream payloads: a number
(modelled as an exact rational), a string, or an explicit `null`. -/
inductive JVal where
  | num (q : ℚ)
  | str (s : String)
  | null
deriving DecidableEq, Repr

/-- A Python dict with string keys, as an association list.  An
assignment prepends; a lookup returns the newest binding. -/
def Dict := List (String × JVal)

instance : DecidableEq Dict := by unfold Dict; infer_instance

instance : Repr Dict := by unfold Dict; infer_instance

/-- `d.get(k)` / `d[k]`: the newest binding of `k`, if any. -/
def dget : Dict → String → Option JVal
  | [], _ => none
  | (k', v) :: d, k => if k = k' then some v else dget d k

/-- `d[k] = v`: record assignment (newest binding wins on lookup). -/
def dset (d : Dict) (k : String) (v : JVal) : Dict := (k, v) :: d

/-- The `if (xx := data.get(key, 0.0)) is None: xx = 0.0` idiom of
`_preprocess`: absence and `null` both collapse to the number `0`. -/
def coalesce0 : Option JVal → JVal
  | none => JVal.num 0
  | some JVal.null => JVal.num 0
  | some v => v

/-- Keys of the overall snapshot dict: integer-like transmitter ids (any
JSON value can key a Python dict, so the key carries a `JVal`) and the
top-level `DataKey.UUID` entry. -/
inductive OutKey where
  | tx (v : JVal)
  | uuid
deriving DecidableEq, Repr

/-- A snapshot entry: either a per-transmitter record dict or a plain
value (only the top-level UUID entry is a plain value). -/
inductive Entry where
  | recd (d : Dict)
  | val (v : JVal)
deriving DecidableEq, Repr

/-- The normalized snapshot, `outdata` of `_preprocess`. -/
def Snap := List (OutKey × Entry)

instance : DecidableEq Snap := by unfold Snap; infer_instance

/-- `outdata[k]`, if present. -/
def sget : Snap → OutKey → Option Entry
  | [], _ => none
  | (k', e) :: st, k => if k = k' then some e else sget st k

/-- `outdata[k] = e` (newest binding wins on lookup). -/
def sset (st : Snap) (k : OutKey) (e : Entry) : Snap := (k, e) :: st

/-- `outdata.setdefault(k, {})`. -/
def ssetdefault (st : Snap) (k : OutKey) : Snap :=
  match sget st k with
  | some _ => st
  | none => (k, Entry.recd []) :: st

/-- Whether `k in outdata`. -/
def containsKey (st : Snap) (k : OutKey) : Bool := (sget st k).isSome

/-- `outdata[k]` when it must be a record dict (`outdata[k][field] = v`
raises a `KeyError`/`TypeError` otherwise). -/
def sgetRec (st : Snap) (k : OutKey) : Option Dict :=
  match sget st k with
  | some (Entry.recd d) => some d
  | _ => none

/-! ### The `DataKey` field dictionary

Modelled from the spec: the canonical field-name enumeration (`DataKey`
in `const.py`, not among the provided sources) is a closed set of
distinct stable strings; the names below mirror the members referenced
by `_preprocess` and `sensor.py`, with distinct canonical values. -/

def DataKey.UUID : String := "uuid"
def DataKey.SENSOR_TYPE : String := "sensor_type"
def DataKey.DATA_STRUCTURE : String := "data_structure"
def DataKey.TIMESTAMP : String := "timestamp"
def DataKey.TEMP_OUT : String := "temp_out"
def DataKey.TEMP_IN : String := "temp_in"
def DataKey.HUM_OUT : String := "hum_out"
def DataKey.HUM_IN : String := "hum_in"
def DataKey.WIND_MPH : String := "wind_mph"
def DataKey.WIND_MPH_1M : String := "wind_mph_1m"
def DataKey.WIND_MPH_2M : String := "wind_mph_2m"
def DataKey.WIND_MPH_10M : String := "wind_mph_10m"
def DataKey.WIND_GUST_MPH : String := "wind_gust_mph"
def DataKey.WIND_GUST_MPH_2M : String := "wind_gust_mph_2m"
def DataKey.WIND_DIR : String := "wind_dir"
def DataKey.WIND_DIR_2M : String := "wind_dir_2m"
def DataKey.WIND_DIR_10M : String := "wind_dir_10m"
def DataKey.WIND_GUST_DIR : String := "wind_gust_dir"
def DataKey.WIND_GUST_DIR_2M : String := "wind_gust_dir_2m"
def DataKey.DEWPOINT : String := "dewpoint"
def DataKey.HEAT_INDEX : String := "heat_index"
def DataKey.THW_INDEX : String := "thw_index"
def DataKey.THSW_INDEX : String := "thsw_index"
def DataKey.WET_BULB : String := "wet_bulb"
def DataKey.WIND_CHILL : String := "wind_chill"
def DataKey.RAIN_DAY : String := "rain_day"
def DataKey.RAIN_DAY_15M : String := "rain_day_15m"
def DataKey.RAIN_DAY_60M : String := "rain_day_60m"
def DataKey.RAIN_DAY_24H : String := "rain_day_24h"
def DataKey.RAIN_STORM : String := "rain_storm"
def DataKey.RAIN_STORM_START : String := "rain_storm_start"
def DataKey.RAIN_STORM_LAST : String := "rain_storm_last"
def DataKey.RAIN_STORM_LAST_START : String := "rain_storm_last_start"
def DataKey.RAIN_STORM_LAST_END : String := "rain_storm_last_end"
def DataKey.RAIN_RATE : String := "rain_rate"
def DataKey.RAIN_RATE_HI : String := "rain_rate_hi"
def DataKey.RAIN_RATE_HI_15M : String := "rain_rate_hi_15m"
def DataKey.RAIN_MONTH : String := "rain_month"
def DataKey.RAIN_YEAR : String := "rain_year"
def DataKey.TRANS_BATTERY_FLAG : String := "trans_battery_flag"
def DataKey.TRANS_BATTERY_VOLT : String := "trans_battery_volt"
def DataKey.SUPERCAP_VOLT : String := "supercap_volt"
def DataKey.SOLAR_PANEL_VOLT : String := "solar_panel_volt"
def DataKey.UV_INDEX : String := "uv_index"
def DataKey.SOLAR_RADIATION : String := "solar_radiation"
def DataKey.SOLAR_ENERGY : String := "solar_energy"
def DataKey.HDDF_DAY : String := "hddf_day"
def DataKey.HDDC_DAY : String := "hddc_day"
def DataKey.CDDF_DAY : String := "cddf_day"
def DataKey.CDDC_DAY : String := "cddc_day"
def DataKey.UV_DOSE : String := "uv_dose"
def DataKey.WIND_RUN : String := "wind_run"
def DataKey.RSSI : String := "rssi"
def DataKey.FREQ_ERROR : String := "freq_error"
def DataKey.PACKETS_MISSED : String := "packets_missed"
def DataKey.PACKETS_RECEIVED : String := "packets_received"
def DataKey.RECEPTION : String := "reception"
def DataKey.RESYNCS : String := "resyncs"
def DataKey.CRC_ERRORS : String := "crc_errors"
def DataKey.ET_DAY : String := "et_day"
def DataKey.ET_MONTH : String := "et_month"
def DataKey.ET_YEAR : String := "et_year"
def DataKey.RX_STATE : String := "rx_state"
def DataKey.TEMP_EXTRA : String := "temp_extra"
def DataKey.TEMP_LEAF : String := "temp_leaf"
def DataKey.TEMP_SOIL : String := "temp_soil"
def DataKey.HUM_EXTRA : String := "hum_extra"
def DataKey.MOIST_SOIL : String := "moist_soil"
def DataKey.WET_LEAF : String := "wet_leaf"
def DataKey.BAR_SEA_LEVEL : String := "bar_sea_level"
def DataKey.BAR_TREND : String := "bar_trend_key"
def DataKey.TEMP : String := "temp_key"
def DataKey.HUM : String := "hum_key"
def DataKey.PM_1 : String := "pm_1"
def DataKey.PM_2P5 : String := "pm_2p5"
def DataKey.PM_2P5_24H : String := "pm_2p5_24h"
def DataKey.PM_2P5_1H : String := "pm_2p5_1h"
def DataKey.PM_2P5_3H : String := "pm_2p5_3h"
def DataKey.PM_2P5_NOWCAST : String := "pm_2p5_nowcast"
def DataKey.PM_10 : String := "pm_10_key"
def DataKey.PM_10_24H : String := "pm_10_24h"
def DataKey.PM_10_1H : String := "pm_10_1h"
def DataKey.PM_10_3H : String := "pm_10_3h"
def DataKey.PM_10_NOWCAST : String := "pm_10_nowcast_key"
def DataKey.PM_PCT_DATA : String := "pm_pct_data"
def DataKey.PM_PCT_DATA_1H : String := "pm_pct_data_1h"
def DataKey.PM_PCT_DATA_3H : String := "pm_pct_data_3h"
def DataKey.PM_PCT_DATA_24H : String := "pm_pct_data_24h"
def DataKey.AQI_VAL : String := "aqi_val"
def DataKey.AQI_NOWCAST_VAL : String := "aqi_nowcast_val"

/-! ### Sensor records and the modern (v2) payload -/

/-- One sensor record of a modern-shape payload.  `sensor_type` and
`data_structure_type` are the upstream integer codes consulted by every
dispatch guard; `lsid` is the binding of the sensor dict's `"lsid"` key
(`none` models a missing key, whose access would raise); `data` is the
record's data array, of which `_preprocess` reads element `0`. -/
structure Sensor where
  sensor_type : ℤ
  data_structure_type : ℤ
  lsid : Option JVal
  data : List Dict

/-- A modern-shape payload: the binding of `"station_id_uuid"` (`none`
models a missing key) and the ordered sensor sequence. -/
structure V2Payload where
  station_id_uuid : Option JVal
  sensors : List Sensor

/-- The `SENSOR_TYPE_VUE_AND_VANTAGE_PRO` tuple of `__init__.py`. -/
def SENSOR_TYPE_VUE_AND_VANTAGE_PRO : List ℤ :=
  [23, 24, 27, 28, 33, 34, 37, 43, 44, 45, 46, 48, 49, 50, 51,
   76, 77, 78, 79, 80, 81, 82, 83, 84, 85, 87]

/-- The `SENSOR_TYPE_AIRLINK` tuple of `__init__.py`. -/
def SENSOR_TYPE_AIRLINK : List ℤ := [323, 326]

/-- `if (xx := data.get(key, 0.0)) is not None: outdata[tx][k] = xx`:
store the raw value (or the `0.0` default when the key is absent) unless
it is `null`, in which case nothing is stored. -/
def condStore (o : Option JVal) (k : String) (r : Dict) : Dict :=
  match o.getD (JVal.num 0) with
  | JVal.null => r
  | v => dset r k v

/-- `if (xx := data.get(key, 0.0)) is not None: xx = xx * c;
outdata[tx][k] = xx` — the scaled store used for `solar_energy_day`
(multiplying a string raises a `TypeError`, aborting the pass). -/
def scaleStore (o : Option JVal) (c : ℚ) (k : String) (r : Dict) : Option Dict :=
  match o.getD (JVal.num 0) with
  | JVal.null => some r
  | JVal.num a => some (dset r k (JVal.num (a * c)))
  | JVal.str _ => none

/-- The degree-day pattern of structure 23: store the Fahrenheit value
under `kf` and the Celsius value (`xx * 5 / 9`) under `kc`, unless the
raw value is `null`. -/
def ddStore (o : Option JVal) (kf kc : String) (r : Dict) : Option Dict :=
  match o.getD (JVal.num 0) with
  | JVal.null => some r
  | JVal.num a => some (dset (dset r kf (JVal.num a)) kc (JVal.num (a * 5 / 9)))
  | JVal.str _ => none

/-- The `bar_trend` pattern of structure 2: `xx = data.get("bar_trend", 0)`;
if non-null it is divided by `1000`; the result (possibly `null`) is
stored unconditionally. -/
def barTrendStore (o : Option JVal) (k : String) (r : Dict) : Option Dict :=
  match o.getD (JVal.num 0) with
  | JVal.null => some (dset r k JVal.null)
  | JVal.num a => some (dset r k (JVal.num (a / 1000)))
  | JVal.str _ => none


/-- `Option` sequencing (a failing lookup aborts the pass).  Kept out of
line so that the long mapping-rule bodies compile directly. -/
@[noinline] def obind {α β : Type} (o : Option α) (f : α → Option β) : Option β :=
  match o with
  | none => none
  | some a => f a

/-! ### Field-mapping rule bodies

Each body mirrors one dispatch block of `_preprocess` for the modern
shape, in source order.  `d` is `sensor["data"][0]`, `r` is the current
record `outdata[tx_id]`; a mandatory `d[key]` access is an `Option`
bind (a missing key raises and aborts the pass). -/

/-- Sensor block for `data_structure_type == 10` (Vue),
`__init__.py` lines 190-282. -/
def vueBody10 (stype : ℤ) (d r : Dict) : Option Dict :=
  let r := dset r DataKey.SENSOR_TYPE (JVal.num stype)
  let r := dset r DataKey.DATA_STRUCTURE (JVal.num 10)
  obind (dget d "ts") fun vts =>
  let r := dset r DataKey.TIMESTAMP vts
  obind (dget d "temp") fun v1 =>
  let r := dset r DataKey.TEMP_OUT v1
  obind (dget d "hum") fun v2 =>
  let r := dset r DataKey.HUM_OUT v2
  obind (dget d "wind_speed_last") fun v3 =>
  let r := dset r DataKey.WIND_MPH v3
  obind (dget d "wind_speed_avg_last_1_min") fun v4 =>
  let r := dset r DataKey.WIND_MPH_1M v4
  obind (dget d "wind_speed_avg_last_2_min") fun v5 =>
  let r := dset r DataKey.WIND_MPH_2M v5
  obind (dget d "wind_speed_avg_last_10_min") fun v6 =>
  let r := dset r DataKey.WIND_MPH_10M v6
  obind (dget d "wind_speed_hi_last_10_min") fun v7 =>
  let r := dset r DataKey.WIND_GUST_MPH v7
  obind (dget d "wind_speed_hi_last_2_min") fun v8 =>
  let r := dset r DataKey.WIND_GUST_MPH_2M v8
  obind (dget d "wind_dir_last") fun v9 =>
  let r := dset r DataKey.WIND_DIR v9
  obind (dget d "wind_dir_scalar_avg_last_2_min") fun v10 =>
  let r := dset r DataKey.WIND_DIR_2M v10
  obind (dget d "wind_dir_scalar_avg_last_10_min") fun v11 =>
  let r := dset r DataKey.WIND_DIR_10M v11
  obind (dget d "wind_dir_at_hi_speed_last_10_min") fun v12 =>
  let r := dset r DataKey.WIND_GUST_DIR v12
  obind (dget d "wind_dir_at_hi_speed_last_2_min") fun v13 =>
  let r := dset r DataKey.WIND_GUST_DIR_2M v13
  obind (dget d "dew_point") fun v14 =>
  let r := dset r DataKey.DEWPOINT v14
  obind (dget d "heat_index") fun v15 =>
  let r := dset r DataKey.HEAT_INDEX v15
  obind (dget d "thw_index") fun v16 =>
  let r := dset r DataKey.THW_INDEX v16
  obind (dget d "thsw_index") fun v17 =>
  let r := dset r DataKey.THSW_INDEX v17
  obind (dget d "wet_bulb") fun v18 =>
  let r := dset r DataKey.WET_BULB v18
  obind (dget d "wind_chill") fun v19 =>
  let r := dset r DataKey.WIND_CHILL v19
  let r := dset r DataKey.RAIN_DAY ((dget d "rainfall_daily_in").getD (JVal.num 0))
  let r := dset r DataKey.RAIN_DAY_15M (coalesce0 (dget d "rainfall_last_15_min_in"))
  let r := dset r DataKey.RAIN_DAY_60M (coalesce0 (dget d "rainfall_last_60_min_in"))
  let r := dset r DataKey.RAIN_DAY_24H (coalesce0 (dget d "rainfall_last_24_hr_in"))
  let r := dset r DataKey.RAIN_STORM (coalesce0 (dget d "rain_storm_in"))
  let r := dset r DataKey.RAIN_STORM_START ((dget d "rain_storm_start_time").getD JVal.null)
  let r := dset r DataKey.RAIN_STORM_LAST (coalesce0 (dget d "rain_storm_last_in"))
  let r := dset r DataKey.RAIN_STORM_LAST_START ((dget d "rain_storm_last_start_at").getD JVal.null)
  let r := dset r DataKey.RAIN_STORM_LAST_END ((dget d "rain_storm_last_end_at").getD JVal.null)
  obind (dget d "rain_rate_last_in") fun v20 =>
  let r := dset r DataKey.RAIN_RATE v20
  obind (dget d "rain_rate_hi_in") fun v21 =>
  let r := dset r DataKey.RAIN_RATE_HI v21
  obind (dget d "rain_rate_hi_last_15_min_in") fun v22 =>
  let r := dset r DataKey.RAIN_RATE_HI_15M v22
  obind (dget d "rainfall_monthly_in") fun v23 =>
  let r := dset r DataKey.RAIN_MONTH v23
  obind (dget d "rainfall_year_in") fun v24 =>
  let r := dset r DataKey.RAIN_YEAR v24
  obind (dget d "trans_battery_flag") fun v25 =>
  let r := dset r DataKey.TRANS_BATTERY_FLAG v25
  obind (dget d "uv_index") fun v26 =>
  let r := dset r DataKey.UV_INDEX v26
  obind (dget d "solar_rad") fun v27 =>
  let r := dset r DataKey.SOLAR_RADIATION v27
  let r := dset r DataKey.ET_DAY ((dget d "et_day").getD JVal.null)
  let r := dset r DataKey.ET_MONTH ((dget d "et_month").getD JVal.null)
  let r := dset r DataKey.ET_YEAR ((dget d "et_year").getD JVal.null)
  let r := dset r DataKey.RX_STATE ((dget d "rx_state").getD JVal.null)
  some r

/-- The `for numb in range(1, n + 1)` probe-family loops of
`_preprocess`: copy each (source key, canonical key) pair in order, a
missing source key raising. -/
def copyFam (d : Dict) : List (String × String) → Dict → Option Dict
  | [], r => some r
  | p :: rest, r => obind (dget d p.1) fun v => copyFam d rest (dset r p.2 v)

/-- Sensor block for `data_structure_type == 2` (legacy Vantage
structure), `__init__.py` lines 284-360.  The indexed probe families
(`temp_extra_1..7`, `temp_leaf_1..4`, `temp_soil_1..4`,
`hum_extra_1..7`, `moist_soil_1..4`, `wet_leaf_1..4`) are the source's
`for numb in range(...)` loops unrolled. -/
def vanBody2 (stype : ℤ) (d r : Dict) : Option Dict :=
  let r := dset r DataKey.SENSOR_TYPE (JVal.num stype)
  let r := dset r DataKey.DATA_STRUCTURE (JVal.num 2)
  obind (dget d "ts") fun vts =>
  let r := dset r DataKey.TIMESTAMP vts
  obind (dget d "temp_out") fun v1 =>
  let r := dset r DataKey.TEMP_OUT v1
  obind (dget d "temp_in") fun v2 =>
  let r := dset r DataKey.TEMP_IN v2
  obind (copyFam d
    [("temp_extra_1", DataKey.TEMP_EXTRA ++ "_1"), ("temp_extra_2", DataKey.TEMP_EXTRA ++ "_2"),
     ("temp_extra_3", DataKey.TEMP_EXTRA ++ "_3"), ("temp_extra_4", DataKey.TEMP_EXTRA ++ "_4"),
     ("temp_extra_5", DataKey.TEMP_EXTRA ++ "_5"), ("temp_extra_6", DataKey.TEMP_EXTRA ++ "_6"),
     ("temp_extra_7", DataKey.TEMP_EXTRA ++ "_7"),
     ("temp_leaf_1", DataKey.TEMP_LEAF ++ "_1"), ("temp_leaf_2", DataKey.TEMP_LEAF ++ "_2"),
     ("temp_leaf_3", DataKey.TEMP_LEAF ++ "_3"), ("temp_leaf_4", DataKey.TEMP_LEAF ++ "_4"),
     ("temp_soil_1", DataKey.TEMP_SOIL ++ "_1"), ("temp_soil_2", DataKey.TEMP_SOIL ++ "_2"),
     ("temp_soil_3", DataKey.TEMP_SOIL ++ "_3"), ("temp_soil_4", DataKey.TEMP_SOIL ++ "_4"),
     ("hum_extra_1", DataKey.HUM_EXTRA ++ "_1"), ("hum_extra_2", DataKey.HUM_EXTRA ++ "_2"),
     ("hum_extra_3", DataKey.HUM_EXTRA ++ "_3"), ("hum_extra_4", DataKey.HUM_EXTRA ++ "_4"),
     ("hum_extra_5", DataKey.HUM_EXTRA ++ "_5"), ("hum_extra_6", DataKey.HUM_EXTRA ++ "_6"),
     ("hum_extra_7", DataKey.HUM_EXTRA ++ "_7"),
     ("moist_soil_1", DataKey.MOIST_SOIL ++ "_1"), ("moist_soil_2", DataKey.MOIST_SOIL ++ "_2"),
     ("moist_soil_3", DataKey.MOIST_SOIL ++ "_3"), ("moist_soil_4", DataKey.MOIST_SOIL ++ "_4"),
     ("wet_leaf_1", DataKey.WET_LEAF ++ "_1"), ("wet_leaf_2", DataKey.WET_LEAF ++ "_2"),
     ("wet_leaf_3", DataKey.WET_LEAF ++ "_3"), ("wet_leaf_4", DataKey.WET_LEAF ++ "_4")] r)
    fun r =>
  obind (dget d "bar") fun v3 =>
  let r := dset r DataKey.BAR_SEA_LEVEL v3
  obind (barTrendStore (dget d "bar_trend") DataKey.BAR_TREND r) fun r =>
  obind (dget d "hum_out") fun v4 =>
  let r := dset r DataKey.HUM_OUT v4
  obind (dget d "hum_in") fun v5 =>
  let r := dset r DataKey.HUM_IN v5
  obind (dget d "wind_speed") fun v6 =>
  let r := dset r DataKey.WIND_MPH v6
  obind (dget d "wind_gust_10_min") fun v7 =>
  let r := dset r DataKey.WIND_GUST_MPH v7
  obind (dget d "wind_dir") fun v8 =>
  let r := dset r DataKey.WIND_DIR v8
  obind (dget d "dew_point") fun v9 =>
  let r := dset r DataKey.DEWPOINT v9
  obind (dget d "heat_index") fun v10 =>
  let r := dset r DataKey.HEAT_INDEX v10
  obind (dget d "wind_chill") fun v11 =>
  let r := dset r DataKey.WIND_CHILL v11
  let r := dset r DataKey.RAIN_DAY ((dget d "rain_day_in").getD JVal.null)
  let r := dset r DataKey.RAIN_STORM (coalesce0 (dget d "rain_storm_in"))
  let r := dset r DataKey.RAIN_STORM_START ((dget d "rain_storm_start_time").getD JVal.null)
  obind (dget d "rain_rate_in") fun v12 =>
  let r := dset r DataKey.RAIN_RATE v12
  obind (dget d "rain_month_in") fun v13 =>
  let r := dset r DataKey.RAIN_MONTH v13
  obind (dget d "rain_year_in") fun v14 =>
  let r := dset r DataKey.RAIN_YEAR v14
  obind (dget d "solar_rad") fun v15 =>
  let r := dset r DataKey.SOLAR_RADIATION v15
  obind (dget d "uv") fun v16 =>
  let r := dset r DataKey.UV_INDEX v16
  obind (dget d "et_day") fun v17 =>
  let r := dset r DataKey.ET_DAY v17
  obind (dget d "et_month") fun v18 =>
  let r := dset r DataKey.ET_MONTH v18
  obind (dget d "et_year") fun v19 =>
  let r := dset r DataKey.ET_YEAR v19
  some r

/-- Sensor block for `data_structure_type == 23` (console Vantage or
Vue), `__init__.py` lines 362-544. -/
def vueBody23 (stype : ℤ) (d r : Dict) : Option Dict :=
  let r := dset r DataKey.SENSOR_TYPE (JVal.num stype)
  let r := dset r DataKey.DATA_STRUCTURE (JVal.num 23)
  obind (dget d "ts") fun vts =>
  let r := dset r DataKey.TIMESTAMP vts
  obind (dget d "temp") fun v1 =>
  let r := dset r DataKey.TEMP_OUT v1
  obind (dget d "hum") fun v2 =>
  let r := dset r DataKey.HUM_OUT v2
  obind (dget d "wind_speed_last") fun v3 =>
  let r := dset r DataKey.WIND_MPH v3
  let r := dset r DataKey.WIND_GUST_MPH (coalesce0 (dget d "wind_speed_hi_last_10_min"))
  obind (dget d "wind_dir_last") fun v4 =>
  let r := dset r DataKey.WIND_DIR v4
  let r := dset r DataKey.WIND_MPH_1M (coalesce0 (dget d "wind_speed_avg_last_1_min"))
  let r := dset r DataKey.WIND_MPH_2M (coalesce0 (dget d "wind_speed_avg_last_2_min"))
  let r := dset r DataKey.WIND_MPH_10M (coalesce0 (dget d "wind_speed_avg_last_10_min"))
  let r := dset r DataKey.WIND_GUST_MPH_2M (coalesce0 (dget d "wind_speed_hi_last_2_min"))
  let r := dset r DataKey.WIND_DIR_2M (coalesce0 (dget d "wind_dir_scalar_avg_last_2_min"))
  let r := dset r DataKey.WIND_DIR_10M (coalesce0 (dget d "wind_dir_scalar_avg_last_10_min"))
  let r := dset r DataKey.WIND_GUST_DIR (coalesce0 (dget d "wind_dir_at_hi_speed_last_10_min"))
  let r := dset r DataKey.WIND_GUST_DIR_2M (coalesce0 (dget d "wind_dir_at_hi_speed_last_2_min"))
  obind (dget d "dew_point") fun v5 =>
  let r := dset r DataKey.DEWPOINT v5
  obind (dget d "heat_index") fun v6 =>
  let r := dset r DataKey.HEAT_INDEX v6
  obind (dget d "thw_index") fun v7 =>
  let r := dset r DataKey.THW_INDEX v7
  obind (dget d "thsw_index") fun v8 =>
  let r := dset r DataKey.THSW_INDEX v8
  obind (dget d "wet_bulb") fun v9 =>
  let r := dset r DataKey.WET_BULB v9
  obind (dget d "wind_chill") fun v10 =>
  let r := dset r DataKey.WIND_CHILL v10
  let r := dset r DataKey.RAIN_DAY ((dget d "rainfall_day_in").getD (JVal.num 0))
  let r := dset r DataKey.RAIN_DAY_15M (coalesce0 (dget d "rainfall_last_15_min_in"))
  let r := dset r DataKey.RAIN_DAY_60M (coalesce0 (dget d "rainfall_last_60_min_in"))
  let r := dset r DataKey.RAIN_DAY_24H (coalesce0 (dget d "rainfall_last_24_hr_in"))
  let r := dset r DataKey.RAIN_STORM (coalesce0 (dget d "rain_storm_current_in"))
  let r := dset r DataKey.RAIN_STORM_START ((dget d "rain_storm_current_start_at").getD JVal.null)
  let r := dset r DataKey.RAIN_STORM_LAST (coalesce0 (dget d "rain_storm_last_in"))
  let r := dset r DataKey.RAIN_STORM_LAST_START ((dget d "rain_storm_last_start_at").getD JVal.null)
  let r := dset r DataKey.RAIN_STORM_LAST_END ((dget d "rain_storm_last_end_at").getD JVal.null)
  let r := dset r DataKey.RAIN_RATE (coalesce0 (dget d "rain_rate_last_in"))
  let r := dset r DataKey.RAIN_RATE_HI (coalesce0 (dget d "rain_rate_hi_in"))
  let r := dset r DataKey.RAIN_RATE_HI_15M (coalesce0 (dget d "rain_rate_hi_last_15_min_in"))
  let r := dset r DataKey.RAIN_MONTH (coalesce0 (dget d "rainfall_month_in"))
  let r := dset r DataKey.RAIN_YEAR (coalesce0 (dget d "rainfall_year_in"))
  let r := condStore (dget d "trans_battery_flag") DataKey.TRANS_BATTERY_FLAG r
  let r := condStore (dget d "trans_battery_volt") DataKey.TRANS_BATTERY_VOLT r
  let r := condStore (dget d "supercap_volt") DataKey.SUPERCAP_VOLT r
  let r := condStore (dget d "solar_panel_volt") DataKey.SOLAR_PANEL_VOLT r
  let r := condStore (dget d "solar_rad") DataKey.SOLAR_RADIATION r
  let r := condStore (dget d "uv_index") DataKey.UV_INDEX r
  let r := condStore (dget d "et_day") DataKey.ET_DAY r
  let r := condStore (dget d "et_month") DataKey.ET_MONTH r
  let r := condStore (dget d "et_year") DataKey.ET_YEAR r
  obind (scaleStore (dget d "solar_energy_day") (5811 / 500) DataKey.SOLAR_ENERGY r) fun r =>
  obind (ddStore (dget d "hdd_day") DataKey.HDDF_DAY DataKey.HDDC_DAY r) fun r =>
  obind (ddStore (dget d "cdd_day") DataKey.CDDF_DAY DataKey.CDDC_DAY r) fun r =>
  let r := condStore (dget d "uv_dose_day") DataKey.UV_DOSE r
  let r := condStore (dget d "wind_run_day") DataKey.WIND_RUN r
  let r := condStore (dget d "rssi_last") DataKey.RSSI r
  let r := condStore (dget d "freq_error_current") DataKey.FREQ_ERROR r
  let r := condStore (dget d "packets_missed_day") DataKey.PACKETS_MISSED r
  let r := condStore (dget d "packets_received_day") DataKey.PACKETS_RECEIVED r
  let r := condStore (dget d "reception_day") DataKey.RECEPTION r
  let r := condStore (dget d "resyncs_day") DataKey.RESYNCS r
  let r := condStore (dget d "crc_errors_day") DataKey.CRC_ERRORS r
  let r := dset r DataKey.RX_STATE ((dget d "rx_state").getD JVal.null)
  some r

/-- Sensor block for the leaf/soil station (`sensor_type == 56`,
`data_structure_type == 12` or `25`; the two blocks are identical up to
the stored structure number `dstv`), `__init__.py` lines 547-596.  The
`for numb in range(...)` loops are unrolled. -/
def leafSoilBody (stype dstv : ℤ) (d r : Dict) : Option Dict :=
  let r := dset r DataKey.SENSOR_TYPE (JVal.num stype)
  let r := dset r DataKey.DATA_STRUCTURE (JVal.num dstv)
  obind (dget d "ts") fun vts =>
  let r := dset r DataKey.TIMESTAMP vts
  obind (copyFam d
    [("temp_1", DataKey.TEMP ++ "_1"), ("temp_2", DataKey.TEMP ++ "_2"),
     ("temp_3", DataKey.TEMP ++ "_3"), ("temp_4", DataKey.TEMP ++ "_4"),
     ("moist_soil_1", DataKey.MOIST_SOIL ++ "_1"), ("moist_soil_2", DataKey.MOIST_SOIL ++ "_2"),
     ("moist_soil_3", DataKey.MOIST_SOIL ++ "_3"), ("moist_soil_4", DataKey.MOIST_SOIL ++ "_4"),
     ("wet_leaf_1", DataKey.WET_LEAF ++ "_1"), ("wet_leaf_2", DataKey.WET_LEAF ++ "_2")] r)
    fun r =>
  obind (dget d "trans_battery_flag") fun vb =>
  let r := dset r DataKey.TRANS_BATTERY_FLAG vb
  let r := dset r DataKey.RX_STATE ((dget d "rx_state").getD JVal.null)
  some r

/-- Indoor temperature/humidity satellite blocks (`sensor_type == 365`
with structure 21, `sensor_type == 243` with structure 12),
`__init__.py` lines 598-605: two mandatory fields written into the
primary transmitter's record, with no timestamp. -/
def inTempBody (d r : Dict) : Option Dict :=
  obind (dget d "temp_in") fun v1 =>
  let r := dset r DataKey.TEMP_IN v1
  obind (dget d "hum_in") fun v2 =>
  let r := dset r DataKey.HUM_IN v2
  some r

/-- Barometer satellite blocks (`sensor_type == 242`, structure 12 or
19), `__init__.py` lines 606-617: two mandatory fields written into the
primary transmitter's record, with no timestamp. -/
def barBody (d r : Dict) : Option Dict :=
  obind (dget d "bar_sea_level") fun v1 =>
  let r := dset r DataKey.BAR_SEA_LEVEL v1
  obind (dget d "bar_trend") fun v2 =>
  let r := dset r DataKey.BAR_TREND v2
  some r

/-- AirLink air-quality block (`sensor_type in SENSOR_TYPE_AIRLINK`,
`data_structure_type == 16`), `__init__.py` lines 619-661. -/
def airBody (stype : ℤ) (d r : Dict) : Option Dict :=
  let r := dset r DataKey.SENSOR_TYPE (JVal.num stype)
  let r := dset r DataKey.DATA_STRUCTURE (JVal.num 16)
  obind (dget d "ts") fun vts =>
  let r := dset r DataKey.TIMESTAMP vts
  obind (dget d "temp") fun v1 =>
  let r := dset r DataKey.TEMP v1
  obind (dget d "hum") fun v2 =>
  let r := dset r DataKey.HUM v2
  obind (dget d "dew_point") fun v3 =>
  let r := dset r DataKey.DEWPOINT v3
  obind (dget d "heat_index") fun v4 =>
  let r := dset r DataKey.HEAT_INDEX v4
  obind (dget d "wet_bulb") fun v5 =>
  let r := dset r DataKey.WET_BULB v5
  obind (dget d "pm_1") fun p1 =>
  let r := dset r DataKey.PM_1 p1
  obind (dget d "pm_2p5") fun p2 =>
  let r := dset r DataKey.PM_2P5 p2
  obind (dget d "pm_2p5_24_hour") fun p3 =>
  let r := dset r DataKey.PM_2P5_24H p3
  obind (dget d "pm_2p5_1_hour") fun p4 =>
  let r := dset r DataKey.PM_2P5_1H p4
  obind (dget d "pm_2p5_3_hour") fun p5 =>
  let r := dset r DataKey.PM_2P5_3H p5
  obind (dget d "pm_2p5_nowcast") fun p6 =>
  let r := dset r DataKey.PM_2P5_NOWCAST p6
  obind (dget d "pm_10") fun p7 =>
  let r := dset r DataKey.PM_10 p7
  obind (dget d "pm_10_24_hour") fun p8 =>
  let r := dset r DataKey.PM_10_24H p8
  obind (dget d "pm_10_1_hour") fun p9 =>
  let r := dset r DataKey.PM_10_1H p9
  obind (dget d "pm_10_3_hour") fun p10 =>
  let r := dset r DataKey.PM_10_3H p10
  obind (dget d "pm_10_nowcast") fun p11 =>
  let r := dset r DataKey.PM_10_NOWCAST p11
  obind (dget d "pct_pm_data_nowcast") fun p12 =>
  let r := dset r DataKey.PM_PCT_DATA p12
  obind (dget d "pct_pm_data_1_hour") fun p13 =>
  let r := dset r DataKey.PM_PCT_DATA_1H p13
  obind (dget d "pct_pm_data_3_hour") fun p14 =>
  let r := dset r DataKey.PM_PCT_DATA_3H p14
  obind (dget d "pct_pm_data_24_hour") fun p15 =>
  let r := dset r DataKey.PM_PCT_DATA_24H p15
  obind (dget d "aqi_val") fun p16 =>
  let r := dset r DataKey.AQI_VAL p16
  obind (dget d "aqi_nowcast_val") fun p17 =>
  let r := dset r DataKey.AQI_NOWCAST_VAL p17
  some r

/-! ### The modern-shape dispatcher -/

/-- One iteration of the `for sensor in indata["sensors"]` loop of
`_preprocess` (API v2).  The guards are those of the source's `if`
blocks, which are pairwise disjoint because each is determined by the
`(sensor_type, data_structure_type)` pair, so the sequence of `if`s is
an `if`/`else if` cascade.  For the matched block the target id is
resolved (`data[0]["tx_id"]`, a default of `1` for structure 2, the
sensor's `lsid` for AirLink, or the primary id), the target record is
created if needed (`setdefault`), and the block body fills it. -/
def processSensorV2 (primary : JVal) (st : Snap) (s : Sensor) : Option Snap :=
  if (s.sensor_type ∈ SENSOR_TYPE_VUE_AND_VANTAGE_PRO ∨ s.sensor_type = 55)
      ∧ s.data_structure_type = 10 then
    obind s.data.head? fun d =>
    obind (dget d "tx_id") fun txv =>
    let st := ssetdefault st (OutKey.tx txv)
    obind (sgetRec st (OutKey.tx txv)) fun r =>
    obind (vueBody10 s.sensor_type d r) fun r2 =>
    some (sset st (OutKey.tx txv) (Entry.recd r2))
  else if s.sensor_type ∈ SENSOR_TYPE_VUE_AND_VANTAGE_PRO
      ∧ s.data_structure_type = 2 then
    obind s.data.head? fun d =>
    let txv := (dget d "tx_id").getD (JVal.num 1)
    let st := ssetdefault st (OutKey.tx txv)
    obind (sgetRec st (OutKey.tx txv)) fun r =>
    obind (vanBody2 s.sensor_type d r) fun r2 =>
    some (sset st (OutKey.tx txv) (Entry.recd r2))
  else if (s.sensor_type ∈ SENSOR_TYPE_VUE_AND_VANTAGE_PRO ∨ s.sensor_type = 55)
      ∧ s.data_structure_type = 23 then
    obind s.data.head? fun d =>
    obind (dget d "tx_id") fun txv =>
    let st := ssetdefault st (OutKey.tx txv)
    obind (sgetRec st (OutKey.tx txv)) fun r =>
    obind (vueBody23 s.sensor_type d r) fun r2 =>
    some (sset st (OutKey.tx txv) (Entry.recd r2))
  else if s.sensor_type = 56 ∧ s.data_structure_type = 12 then
    obind s.data.head? fun d =>
    obind (dget d "tx_id") fun txv =>
    let st := ssetdefault st (OutKey.tx txv)
    obind (sgetRec st (OutKey.tx txv)) fun r =>
    obind (leafSoilBody s.sensor_type 12 d r) fun r2 =>
    some (sset st (OutKey.tx txv) (Entry.recd r2))
  else if s.sensor_type = 56 ∧ s.data_structure_type = 25 then
    obind s.data.head? fun d =>
    obind (dget d "tx_id") fun txv =>
    let st := ssetdefault st (OutKey.tx txv)
    obind (sgetRec st (OutKey.tx txv)) fun r =>
    obind (leafSoilBody s.sensor_type 25 d r) fun r2 =>
    some (sset st (OutKey.tx txv) (Entry.recd r2))
  else if s.sensor_type = 365 ∧ s.data_structure_type = 21 then
    obind s.data.head? fun d =>
    obind (sgetRec st (OutKey.tx primary)) fun r =>
    obind (inTempBody d r) fun r2 =>
    some (sset st (OutKey.tx primary) (Entry.recd r2))
  else if s.sensor_type = 243 ∧ s.data_structure_type = 12 then
    obind s.data.head? fun d =>
    obind (sgetRec st (OutKey.tx primary)) fun r =>
    obind (inTempBody d r) fun r2 =>
    some (sset st (OutKey.tx primary) (Entry.recd r2))
  else if s.sensor_type = 242 ∧ s.data_structure_type = 12 then
    obind s.data.head? fun d =>
    obind (sgetRec st (OutKey.tx primary)) fun r =>
    obind (barBody d r) fun r2 =>
    some (sset st (OutKey.tx primary) (Entry.recd r2))
  else if s.sensor_type = 242 ∧ s.data_structure_type = 19 then
    obind s.data.head? fun d =>
    obind (sgetRec st (OutKey.tx primary)) fun r =>
    obind (barBody d r) fun r2 =>
    some (sset st (OutKey.tx primary) (Entry.recd r2))
  else if s.sensor_type ∈ SENSOR_TYPE_AIRLINK ∧ s.data_structure_type = 16 then
    obind s.data.head? fun d =>
    obind s.lsid fun lv =>
    let st := ssetdefault st (OutKey.tx lv)
    obind (sgetRec st (OutKey.tx lv)) fun r =>
    obind (airBody s.sensor_type d r) fun r2 =>
    some (sset st (OutKey.tx lv) (Entry.recd r2))
  else
    some st

/-- The recognized `(sensor_type, data_structure_type)` pairs: exactly
the guards of `processSensorV2` other than the final skip case. -/
def recognizedPair (stype dstv : ℤ) : Prop :=
  ((stype ∈ SENSOR_TYPE_VUE_AND_VANTAGE_PRO ∨ stype = 55) ∧ dstv = 10)
  ∨ (stype ∈ SENSOR_TYPE_VUE_AND_VANTAGE_PRO ∧ dstv = 2)
  ∨ ((stype ∈ SENSOR_TYPE_VUE_AND_VANTAGE_PRO ∨ stype = 55) ∧ dstv = 23)
  ∨ (stype = 56 ∧ dstv = 12)
  ∨ (stype = 56 ∧ dstv = 25)
  ∨ (stype = 365 ∧ dstv = 21)
  ∨ (stype = 243 ∧ dstv = 12)
  ∨ (stype = 242 ∧ dstv = 12)
  ∨ (stype = 242 ∧ dstv = 19)
  ∨ (stype ∈ SENSOR_TYPE_AIRLINK ∧ dstv = 16)

instance (stype dstv : ℤ) : Decidable (recognizedPair stype dstv) := by
  unfold recognizedPair
  infer_instance

/-- The sensor loop: iterate in input order; an exception raised for one
sensor record propagates out of `_preprocess` (there is no `try` around
the loop), so processing stops and no snapshot is produced. -/
def runSensors (primary : JVal) : Snap → List Sensor → Option Snap
  | st, [] => some st
  | st, s :: rest =>
    obind (processSensorV2 primary st s) fun st' => runSensors primary st' rest

/-- The state of `outdata` before the sensor loop of the API-v2 branch:
`outdata.setdefault(primary_tx_id, {})` followed by
`outdata[DataKey.UUID] = indata["station_id_uuid"]` (a missing
`station_id_uuid` key raises). -/
def initSnap (primary : JVal) (uuidv : Option JVal) : Option Snap :=
  let st := ssetdefault ([] : Snap) (OutKey.tx primary)
  obind uuidv fun u =>
  some (sset st OutKey.uuid (Entry.val u))

/-- `_preprocess` for the modern (API v2) shape. -/
def preprocessV2 (primary : JVal) (p : V2Payload) : Option Snap :=
  obind (initSnap primary p.station_id_uuid) fun st =>
  runSensors primary st p.sensors

/-- `d.get(k)`: Python `.get` with default `None`. -/
@[noinline] def jget (d : Dict) (k : String) : JVal := (dget d k).getD JVal.null

/-- `d.get(k, default)`. -/
@[noinline] def jgetD (d : Dict) (k : String) (v : JVal) : JVal := (dget d k).getD v

/-! ### The legacy (API v1) shape -/

/-- A legacy-shape payload: the top-level document and the binding of
its `"davis_current_observation"` key (`none` models a missing key,
whose access raises). -/
structure V1Payload where
  top : Dict
  dco : Option Dict

/-- `_preprocess` for the legacy (API v1) shape, `__init__.py` lines
150-184.  `parse` models the standard library's
`mktime_tz(parsedate_tz(s))` composition: RFC-822 date string to epoch
seconds, failing (raising) when the string does not parse.  The `DID`
and `station_name` keys are the source's literal strings.  All other
reads are `.get(...)` (absence stored as `null`) except
`rain_storm_in` (absence defaulted to `0.0`) and the mandatory
`observation_time_rfc822`. -/
def preprocessV1 (parse : String → Option ℤ) (p : V1Payload) : Option Snap :=
  obind p.dco fun dco =>
  obind (dget p.top "observation_time_rfc822") fun obs =>
  obind (match obs with | JVal.str s => parse s | _ => none) fun t =>
  let r : Dict := []
  let r := dset r "DID" (jget dco "DID")
  let r := dset r "station_name" (jget dco "station_name")
  let r := dset r DataKey.TEMP_OUT (jget p.top "temp_f")
  let r := dset r DataKey.HEAT_INDEX (jget p.top "heat_index_f")
  let r := dset r DataKey.WIND_CHILL (jget p.top "wind_chill_f")
  let r := dset r DataKey.TEMP_IN (jget dco "temp_in_f")
  let r := dset r DataKey.HUM_IN (jget dco "relative_humidity_in")
  let r := dset r DataKey.HUM_OUT (jget p.top "relative_humidity")
  let r := dset r DataKey.BAR_SEA_LEVEL (jget p.top "pressure_in")
  let r := dset r DataKey.WIND_MPH (jget p.top "wind_mph")
  let r := dset r DataKey.WIND_GUST_MPH (jget dco "wind_ten_min_gust_mph")
  let r := dset r DataKey.WIND_DIR (jget p.top "wind_degrees")
  let r := dset r DataKey.DEWPOINT (jget p.top "dewpoint_f")
  let r := dset r DataKey.RAIN_DAY (jget dco "rain_day_in")
  let r := dset r DataKey.RAIN_STORM (jgetD dco "rain_storm_in" (JVal.num 0))
  let r := dset r DataKey.RAIN_RATE (jget dco "rain_rate_in_per_hr")
  let r := dset r DataKey.RAIN_MONTH (jget dco "rain_month_in")
  let r := dset r DataKey.RAIN_YEAR (jget dco "rain_year_in")
  let r := dset r DataKey.BAR_TREND (jget dco "pressure_tendency_string")
  let r := dset r DataKey.SOLAR_RADIATION (jget dco "solar_radiation")
  let r := dset r DataKey.UV_INDEX (jget dco "uv_index")
  let r := dset r DataKey.ET_DAY (jget dco "et_day")
  let r := dset r DataKey.ET_MONTH (jget dco "et_month")
  let r := dset r DataKey.ET_YEAR (jget dco "et_year")
  let r := dset r DataKey.TIMESTAMP (JVal.num (t : ℚ))
  some (sset (ssetdefault ([] : Snap) (OutKey.tx (JVal.num 1))) (OutKey.tx (JVal.num 1)) (Entry.recd r))

/-! ### Derived values and freshness (`sensor.py`) -/

/-- The 16 compass-point labels of `WLSensor.native_value`, clockwise
from north. -/
def directions : List String :=
  ["n", "nne", "ne", "ene", "e", "ese", "se", "sse",
   "s", "ssw", "sw", "wsw", "w", "wnw", "nw", "nnw"]

/-- Python's `%` on reals with a positive modulus:
`x % y = x - y * floor(x / y)`, the representative in `[0, y)`. -/
def pymod (x y : ℚ) : ℚ := x - y * (Int.floor (x / y) : ℚ)

/-- `int(((deg + 11.25) % 360) // 22.5)`, the bucket index of
`WLSensor.native_value` (`sensor.py` lines 1291-1304); the float
arithmetic is modelled exactly over `ℚ` (`11.25 = 45/4`,
`22.5 = 45/2`). -/
def compassIndex (deg : ℚ) : ℤ := Int.floor (pymod (deg + 45 / 4) 360 / (45 / 2))

/-- The compass-bucket derivation of `WLSensor.native_value` for
`WindDir`/`WindGustDir`: `none` when the stored degree value is the
payload's `null`, otherwise `directions[index]`. -/
def compassBucket (o : Option ℚ) : Option String :=
  match o with
  | none => none
  | some deg => directions.get? (compassIndex deg).toNat

/-- Python's `str.lower()` (ASCII as in the upstream trend strings),
character-wise. -/
def pyLower (s : String) : String := String.mk (s.data.map Char.toLower)

/-- Python's `str.replace(" ", "_")`: a single-character pattern
replacement is a character-wise map. -/
def pyUnderscore (s : String) : String :=
  String.mk (s.data.map (fun c => if c = ' ' then '_' else c))

/-- A raw pressure-trend value: the two API versions store either a
number or a descriptive string under `DataKey.BAR_TREND`. -/
inductive TrendVal where
  | num (q : ℚ)
  | str (s : String)
deriving DecidableEq, Repr

/-- The pressure-trend classification of `WLSensor.native_value` for
`BarTrend` (`sensor.py` lines 1321-1337).  `isFloatStr` models the
standard library's `float(...)` acceptance on strings (the source's
`is_float`); a string accepted by `float` would then be compared with a
number, raising a `TypeError` (modelled `none`); numbers are classified
by the fixed breakpoints; other strings are lower-cased with spaces
replaced by underscores. -/
def classifyTrend (isFloatStr : String → Bool) : Option TrendVal → Option String
  | none => none
  | some (TrendVal.num q) =>
    if q ≥ 6 / 100 then some "rising_rapidly"
    else if q ≥ 2 / 100 then some "rising_slowly"
    else if q > -(2 / 100) then some "steady"
    else if q > -(6 / 100) then some "falling_slowly"
    else some "falling_rapidly"
  | some (TrendVal.str s) =>
    if isFloatStr s then none
    else some (pyUnderscore (pyLower s))

/-- The `available` property of `WLSensor` (`sensor.py` lines
1564-1576): `False` when the last coordinator update failed; otherwise
`utc_from_timestamp` is applied to the record's `TIMESTAMP` field
(raising, modelled `none`, when that field is absent or not a number)
and the age in minutes is compared strictly against the configured
threshold.  The threshold constant `UNAVAILABLE_AFTER_SECONDS` lives in
`const.py`, which is not among the provided sources; it is passed as
the parameter `threshold` (the spec fixes only that the comparison is
strict and the unit is minutes). -/
def wlAvailable (lastUpdateSuccess : Bool) (tsField : Option JVal)
    (now threshold : ℚ) : Option Bool :=
  if lastUpdateSuccess = false then some false
  else
    match tsField with
    | some (JVal.num ts) => some (decide ((now - ts) / 60 < threshold))
    | _ => none

/-! ### Concrete payloads used by counterexamples and witnesses -/

/-- A complete AirLink (structure 16) data record. -/
def dAirEx : Dict :=
  [("ts", JVal.num 1700000000), ("temp", JVal.num 70), ("hum", JVal.num 40),
   ("dew_point", JVal.num 50), ("heat_index", JVal.num 70), ("wet_bulb", JVal.num 60),
   ("pm_1", JVal.num 3), ("pm_2p5", JVal.num (83 / 10)), ("pm_2p5_24_hour", JVal.num 5),
   ("pm_2p5_1_hour", JVal.num 6), ("pm_2p5_3_hour", JVal.num 7), ("pm_2p5_nowcast", JVal.num 8),
   ("pm_10", JVal.num 9), ("pm_10_24_hour", JVal.num 10), ("pm_10_1_hour", JVal.num 11),
   ("pm_10_3_hour", JVal.num 12), ("pm_10_nowcast", JVal.num 13),
   ("pct_pm_data_nowcast", JVal.num 90), ("pct_pm_data_1_hour", JVal.num 91),
   ("pct_pm_data_3_hour", JVal.num 92), ("pct_pm_data_24_hour", JVal.num 93),
   ("aqi_val", JVal.num 30), ("aqi_nowcast_val", JVal.num 31)]

/-- An AirLink sensor record with `lsid = 99`. -/
def sAirEx : Sensor := ⟨323, 16, some (JVal.num 99), [dAirEx]⟩

/-- A sensor record with a recognized pair (`sensor_type 37`, structure
23) whose data record lacks the required `ts` field. -/
def sBadEx : Sensor := ⟨37, 23, none, [[("tx_id", JVal.num 2)]]⟩

/-- An indoor-temperature satellite record (`sensor_type 365`,
structure 21). -/
def s365Ex : Sensor := ⟨365, 21, none, [[("temp_in", JVal.num 70), ("hum_in", JVal.num 40)]]⟩

/-- The modern payload `{station_id_uuid: "u", sensors: [s365Ex]}`. -/
def p365Ex : V2Payload := ⟨some (JVal.str "u"), [s365Ex]⟩

/-- The modern payload `{station_id_uuid: "u", sensors: [sAirEx]}`. -/
def pAirEx : V2Payload := ⟨some (JVal.str "u"), [sAirEx]⟩

/-- A complete structure-10 data record with `rainfall_last_15_min_in`
absent. -/
def d10Ex : Dict :=
  [("ts", JVal.num 1700000000), ("temp", JVal.num 72), ("hum", JVal.num 40),
   ("wind_speed_last", JVal.num 5), ("wind_speed_avg_last_1_min", JVal.num 5),
   ("wind_speed_avg_last_2_min", JVal.num 5), ("wind_speed_avg_last_10_min", JVal.num 5),
   ("wind_speed_hi_last_10_min", JVal.num 9), ("wind_speed_hi_last_2_min", JVal.num 8),
   ("wind_dir_last", JVal.num 10), ("wind_dir_scalar_avg_last_2_min", JVal.num 11),
   ("wind_dir_scalar_avg_last_10_min", JVal.num 12),
   ("wind_dir_at_hi_speed_last_10_min", JVal.num 13),
   ("wind_dir_at_hi_speed_last_2_min", JVal.num 14), ("dew_point", JVal.num 50),
   ("heat_index", JVal.num 71), ("thw_index", JVal.num 70), ("thsw_index", JVal.num 69),
   ("wet_bulb", JVal.num 60), ("wind_chill", JVal.num 72),
   ("rain_rate_last_in", JVal.num 0), ("rain_rate_hi_in", JVal.num 0),
   ("rain_rate_hi_last_15_min_in", JVal.num 0), ("rainfall_monthly_in", JVal.num 2),
   ("rainfall_year_in", JVal.num 30), ("trans_battery_flag", JVal.num 0),
   ("uv_index", JVal.num 1), ("solar_rad", JVal.num 500)]

/-- A structure-23 data record carrying `tx_id = 2` and
`hdd_day = 18`, with all mandatory fields present. -/
def d23Ex : Dict :=
  [("tx_id", JVal.num 2), ("ts", JVal.num 1700000000), ("temp", JVal.num 72),
   ("hum", JVal.num 40), ("wind_speed_last", JVal.num 5), ("wind_dir_last", JVal.num 10),
   ("dew_point", JVal.num 50), ("heat_index", JVal.num 71), ("thw_index", JVal.num 70),
   ("thsw_index", JVal.num 69), ("wet_bulb", JVal.num 60), ("wind_chill", JVal.num 72),
   ("hdd_day", JVal.num 18)]

/-- The structure-23 sensor record built from `d23Ex`. -/
def s23Ex : Sensor := ⟨37, 23, none, [d23Ex]⟩

/-- The modern payload `{station_id_uuid: "u", sensors: [s23Ex]}`. -/
def p23Ex : V2Payload := ⟨some (JVal.str "u"), [s23Ex]⟩

/-- A complete structure-2 data record with `bar_trend = 500`. -/
def d2Ex : Dict :=
  [("ts", JVal.num 1700000000), ("temp_out", JVal.num 72), ("temp_in", JVal.num 70),
   ("temp_extra_1", JVal.num 1), ("temp_extra_2", JVal.num 2), ("temp_extra_3", JVal.num 3),
   ("temp_extra_4", JVal.num 4), ("temp_extra_5", JVal.num 5), ("temp_extra_6", JVal.num 6),
   ("temp_extra_7", JVal.num 7), ("temp_leaf_1", JVal.num 1), ("temp_leaf_2", JVal.num 2),
   ("temp_leaf_3", JVal.num 3), ("temp_leaf_4", JVal.num 4), ("temp_soil_1", JVal.num 1),
   ("temp_soil_2", JVal.num 2), ("temp_soil_3", JVal.num 3), ("temp_soil_4", JVal.num 4),
   ("hum_extra_1", JVal.num 1), ("hum_extra_2", JVal.num 2), ("hum_extra_3", JVal.num 3),
   ("hum_extra_4", JVal.num 4), ("hum_extra_5", JVal.num 5), ("hum_extra_6", JVal.num 6),
   ("hum_extra_7", JVal.num 7), ("moist_soil_1", JVal.num 1), ("moist_soil_2", JVal.num 2),
   ("moist_soil_3", JVal.num 3), ("moist_soil_4", JVal.num 4), ("wet_leaf_1", JVal.num 1),
   ("wet_leaf_2", JVal.num 2), ("wet_leaf_3", JVal.num 3), ("wet_leaf_4", JVal.num 4),
   ("bar", JVal.num 30), ("bar_trend", JVal.num 500), ("hum_out", JVal.num 40),
   ("hum_in", JVal.num 35), ("wind_speed", JVal.num 5), ("wind_gust_10_min", JVal.num 9),
   ("wind_dir", JVal.num 10), ("dew_point", JVal.num 50), ("heat_index", JVal.num 71),
   ("wind_chill", JVal.num 72), ("rain_rate_in", JVal.num 0), ("rain_month_in", JVal.num 2),
   ("rain_year_in", JVal.num 30), ("solar_rad", JVal.num 500), ("uv", JVal.num 1),
   ("et_day", JVal.num 1), ("et_month", JVal.num 2), ("et_year", JVal.num 3)]

/-- A legacy payload: the top-level document holds the RFC-822
observation time; the embedded `davis_current_observation` sub-object
is present (and may omit any of its optional fields). -/
def pV1Ex : V1Payload :=
  ⟨[("observation_time_rfc822", JVal.str "Sat, 11 Oct 2025 12:00:00 +0000"),
    ("temp_f", JVal.num 72)], some [("rain_day_in", JVal.num 1)]⟩

/-- A stand-in for the standard library RFC-822 parser used by the C8
witness: it accepts every string as epoch second 1700000000. -/
def parseEx : String → Option ℤ := fun _ => some 1700000000

/-- The per-snapshot invariant behind the (amended) timestamp claim:
every transmitter record keyed by an id other than the configured
primary one carries a `TIMESTAMP` field. -/
def tsInvariant (primary : JVal) (st : Snap) : Prop :=
  ∀ t : JVal, t ≠ primary → ∀ e, sget st (OutKey.tx t) = some e →
    ∃ rr, e = Entry.recd rr ∧ (dget rr DataKey.TIMESTAMP).isSome = true

/-! ### Basic lemmas about the embedding -/

theorem obind_eq_some {α β : Type} {o : Option α} {f : α → Option β} {b : β} :
    obind o f = some b ↔ ∃ a, o = some a ∧ f a = some b := by
  cases o <;> simp [obind]

@[simp] theorem dget_dset (r : Dict) (k k' : String) (v : JVal) :
    dget (dset r k' v) k = if k = k' then some v else dget r k := rfl

@[simp] theorem sget_sset (st : Snap) (k k' : OutKey) (e : Entry) :
    sget (sset st k' e) k = if k = k' then some e else sget st k := rfl

theorem sget_ssetdefault_ne (st : Snap) {k k' : OutKey} (h : k ≠ k') :
    sget (ssetdefault st k') k = sget st k := by
  unfold ssetdefault
  cases sget st k' <;> simp [sget, h]

theorem containsKey_ssetdefault_self (st : Snap) (k : OutKey) :
    containsKey (ssetdefault st k) k = true := by
  unfold containsKey ssetdefault
  cases h : sget st k <;> simp [sget, h]

theorem containsKey_ssetdefault_mono (st : Snap) {k k' : OutKey}
    (h : containsKey st k = true) : containsKey (ssetdefault st k') k = true := by
  unfold containsKey ssetdefault at *
  cases hk : sget st k' with
  | some e => simpa using h
  | none =>
    simp only [sget]
    split <;> simp [h]

theorem containsKey_sset_mono (st : Snap) {k : OutKey} (k' : OutKey) (e : Entry)
    (h : containsKey st k = true) : containsKey (sset st k' e) k = true := by
  unfold containsKey at *
  simp only [sget_sset]
  split <;> simp [h]

theorem dget_condStore_ne (o : Option JVal) {k k' : String} (r : Dict) (h : k ≠ k') :
    dget (condStore o k' r) k = dget r k := by
  unfold condStore
  cases o.getD (JVal.num 0) <;> simp [h]

theorem dget_scaleStore_ne {o : Option JVal} {c : ℚ} {k' : String} {r r' : Dict}
    (h : scaleStore o c k' r = some r') {k : String} (hk : k ≠ k') :
    dget r' k = dget r k := by
  unfold scaleStore at h
  rcases hv : o.getD (JVal.num 0) with q | s | _ <;> rw [hv] at h <;>
    simp only [Option.some.injEq] at h
  · subst h
    simp [hk]
  · exact absurd h (by simp)
  · subst h
    rfl

theorem dget_ddStore_ne {o : Option JVal} {kf kc : String} {r r' : Dict}
    (h : ddStore o kf kc r = some r') {k : String} (h1 : k ≠ kf) (h2 : k ≠ kc) :
    dget r' k = dget r k := by
  unfold ddStore at h
  rcases hv : o.getD (JVal.num 0) with q | s | _ <;> rw [hv] at h <;>
    simp only [Option.some.injEq] at h
  · subst h
    simp [h1, h2]
  · exact absurd h (by simp)
  · subst h
    rfl

theorem dget_barTrendStore_ne {o : Option JVal} {k' : String} {r r' : Dict}
    (h : barTrendStore o k' r = some r') {k : String} (hk : k ≠ k') :
    dget r' k = dget r k := by
  unfold barTrendStore at h
  rcases hv : o.getD (JVal.num 0) with q | s | _ <;> rw [hv] at h <;>
    simp only [Option.some.injEq] at h
  · subst h
    simp [hk]
  · exact absurd h (by simp)
  · subst h
    simp [hk]

theorem dget_copyFam_ne {d : Dict} {ps : List (String × String)} {r r' : Dict}
    (h : copyFam d ps r = some r') {k : String} (hk : ∀ p ∈ ps, k ≠ p.2) :
    dget r' k = dget r k := by
  induction ps generalizing r with
  | nil =>
    simp only [copyFam, Option.some.injEq] at h
    subst h
    rfl
  | cons p rest ih =>
    simp only [copyFam, obind_eq_some] at h
    obtain ⟨v, hv, h⟩ := h
    rw [ih h (fun q hq => hk q (List.mem_cons_of_mem p hq))]
    simp [hk p (List.mem_cons_self p rest)]

theorem runSensors_append (primary : JVal) (st : Snap) (l1 l2 : List Sensor) :
    runSensors primary st (l1 ++ l2) =
      obind (runSensors primary st l1) fun st' => runSensors primary st' l2 := by
  induction l1 generalizing st with
  | nil => simp [runSensors, obind]
  | cons s rest ih =>
    simp only [List.cons_append, runSensors]
    cases processSensorV2 primary st s <;> simp [obind, ih]

attribute [simp] DataKey.UUID DataKey.SENSOR_TYPE DataKey.DATA_STRUCTURE DataKey.TIMESTAMP
attribute [simp] DataKey.TEMP_OUT DataKey.TEMP_IN DataKey.HUM_OUT DataKey.HUM_IN
attribute [simp] DataKey.WIND_MPH DataKey.WIND_MPH_1M DataKey.WIND_MPH_2M DataKey.WIND_MPH_10M
attribute [simp] DataKey.WIND_GUST_MPH DataKey.WIND_GUST_MPH_2M DataKey.WIND_DIR
attribute [simp] DataKey.WIND_DIR_2M DataKey.WIND_DIR_10M DataKey.WIND_GUST_DIR
attribute [simp] DataKey.WIND_GUST_DIR_2M DataKey.DEWPOINT DataKey.HEAT_INDEX
attribute [simp] DataKey.THW_INDEX DataKey.THSW_INDEX DataKey.WET_BULB DataKey.WIND_CHILL
attribute [simp] DataKey.RAIN_DAY DataKey.RAIN_DAY_15M DataKey.RAIN_DAY_60M DataKey.RAIN_DAY_24H
attribute [simp] DataKey.RAIN_STORM DataKey.RAIN_STORM_START DataKey.RAIN_STORM_LAST
attribute [simp] DataKey.RAIN_STORM_LAST_START DataKey.RAIN_STORM_LAST_END DataKey.RAIN_RATE
attribute [simp] DataKey.RAIN_RATE_HI DataKey.RAIN_RATE_HI_15M DataKey.RAIN_MONTH
attribute [simp] DataKey.RAIN_YEAR DataKey.TRANS_BATTERY_FLAG DataKey.TRANS_BATTERY_VOLT
attribute [simp] DataKey.SUPERCAP_VOLT DataKey.SOLAR_PANEL_VOLT DataKey.UV_INDEX
attribute [simp] DataKey.SOLAR_RADIATION DataKey.SOLAR_ENERGY DataKey.HDDF_DAY DataKey.HDDC_DAY
attribute [simp] DataKey.CDDF_DAY DataKey.CDDC_DAY DataKey.UV_DOSE DataKey.WIND_RUN
attribute [simp] DataKey.RSSI DataKey.FREQ_ERROR DataKey.PACKETS_MISSED DataKey.PACKETS_RECEIVED
attribute [simp] DataKey.RECEPTION DataKey.RESYNCS DataKey.CRC_ERRORS DataKey.ET_DAY
attribute [simp] DataKey.ET_MONTH DataKey.ET_YEAR DataKey.RX_STATE DataKey.TEMP_EXTRA
attribute [simp] DataKey.TEMP_LEAF DataKey.TEMP_SOIL DataKey.HUM_EXTRA DataKey.MOIST_SOIL
attribute [simp] DataKey.WET_LEAF DataKey.BAR_SEA_LEVEL DataKey.BAR_TREND DataKey.TEMP
attribute [simp] DataKey.HUM DataKey.PM_1 DataKey.PM_2P5 DataKey.PM_2P5_24H DataKey.PM_2P5_1H
attribute [simp] DataKey.PM_2P5_3H DataKey.PM_2P5_NOWCAST DataKey.PM_10 DataKey.PM_10_24H
attribute [simp] DataKey.PM_10_1H DataKey.PM_10_3H DataKey.PM_10_NOWCAST DataKey.PM_PCT_DATA
attribute [simp] DataKey.PM_PCT_DATA_1H DataKey.PM_PCT_DATA_3H DataKey.PM_PCT_DATA_24H
attribute [simp] DataKey.AQI_VAL DataKey.AQI_NOWCAST_VAL

theorem vueBody10_fields {stype : ℤ} {d r out : Dict} (h : vueBody10 stype d r = some out) :
    (∃ v, dget d "ts" = some v ∧ dget out DataKey.TIMESTAMP = some v) ∧
    dget out DataKey.RAIN_DAY_15M = some (coalesce0 (dget d "rainfall_last_15_min_in")) := by
  simp only [vueBody10, obind_eq_some, Option.some.injEq] at h
  obtain ⟨vts, hts, v1, h1, v2, h2, v3, h3, v4, h4, v5, h5, v6, h6, v7, h7, v8, h8, v9, h9,
    v10, h10, v11, h11, v12, h12, v13, h13, v14, h14, v15, h15, v16, h16, v17, h17, v18, h18,
    v19, h19, v20, h20, v21, h21, v22, h22, v23, h23, v24, h24, v25, h25, v26, h26, v27, h27,
    hout⟩ := h
  subst hout
  refine ⟨⟨vts, hts, ?_⟩, ?_⟩ <;> simp

theorem vueBody23_fields {stype : ℤ} {d r out : Dict} (h : vueBody23 stype d r = some out) :
    (∃ v, dget d "ts" = some v ∧ dget out DataKey.TIMESTAMP = some v) ∧
    dget out DataKey.RAIN_DAY_15M = some (coalesce0 (dget d "rainfall_last_15_min_in")) := by
  simp only [vueBody23, obind_eq_some, Option.some.injEq] at h
  obtain ⟨vts, hts, v1, h1, v2, h2, v3, h3, v4, h4, v5, h5, v6, h6, v7, h7, v8, h8, v9, h9,
    v10, h10, rs, hs, rh, hh, rc, hc, hout⟩ := h
  subst hout
  refine ⟨⟨vts, hts, ?_⟩, ?_⟩ <;>
    simp [dget_condStore_ne, dget_ddStore_ne hc, dget_ddStore_ne hh, dget_scaleStore_ne hs]

theorem vueBody23_transforms {stype : ℤ} {d r out : Dict} (h : vueBody23 stype d r = some out) :
    (∀ q : ℚ, dget d "solar_energy_day" = some (JVal.num q) →
        dget out DataKey.SOLAR_ENERGY = some (JVal.num (q * (5811 / 500)))) ∧
    (∀ q : ℚ, dget d "hdd_day" = some (JVal.num q) →
        dget out DataKey.HDDF_DAY = some (JVal.num q) ∧
        dget out DataKey.HDDC_DAY = some (JVal.num (q * 5 / 9))) ∧
    (∀ q : ℚ, dget d "cdd_day" = some (JVal.num q) →
        dget out DataKey.CDDF_DAY = some (JVal.num q) ∧
        dget out DataKey.CDDC_DAY = some (JVal.num (q * 5 / 9))) := by
  simp only [vueBody23, obind_eq_some, Option.some.injEq] at h
  obtain ⟨vts, hts, v1, h1, v2, h2, v3, h3, v4, h4, v5, h5, v6, h6, v7, h7, v8, h8, v9, h9,
    v10, h10, rs, hs, rh, hh, rc, hc, hout⟩ := h
  subst hout
  refine ⟨fun q hq => ?_, fun q hq => ?_, fun q hq => ?_⟩
  · rw [hq] at hs
    simp only [scaleStore, Option.getD_some, Option.some.injEq] at hs
    subst hs
    simp [dget_condStore_ne, dget_ddStore_ne hc, dget_ddStore_ne hh]
  · rw [hq] at hh
    simp only [ddStore, Option.getD_some, Option.some.injEq] at hh
    subst hh
    constructor <;> simp [dget_condStore_ne, dget_ddStore_ne hc]
  · rw [hq] at hc
    simp only [ddStore, Option.getD_some, Option.some.injEq] at hc
    subst hc
    constructor <;> simp [dget_condStore_ne]

theorem vanBody2_fields {stype : ℤ} {d r out : Dict} (h : vanBody2 stype d r = some out) :
    (∃ v, dget d "ts" = some v ∧ dget out DataKey.TIMESTAMP = some v) ∧
    (∀ q : ℚ, dget d "bar_trend" = some (JVal.num q) →
        dget out DataKey.BAR_TREND = some (JVal.num (q / 1000))) := by
  simp only [vanBody2, obind_eq_some, Option.some.injEq] at h
  obtain ⟨vts, hts, v1, h1, v2, h2, rf, hf, v3, h3, rb, hb, v4, h4, v5, h5, v6, h6,
    v7, h7, v8, h8, v9, h9, v10, h10, v11, h11, v12, h12, v13, h13, v14, h14, v15, h15,
    v16, h16, v17, h17, v18, h18, v19, h19, hout⟩ := h
  subst hout
  constructor
  · refine ⟨vts, hts, ?_⟩
    simp only [dget_dset]
    norm_num [DataKey.TIMESTAMP, DataKey.ET_YEAR, DataKey.ET_MONTH, DataKey.ET_DAY,
      DataKey.UV_INDEX, DataKey.SOLAR_RADIATION, DataKey.RAIN_YEAR, DataKey.RAIN_MONTH,
      DataKey.RAIN_RATE, DataKey.RAIN_STORM_START, DataKey.RAIN_STORM, DataKey.RAIN_DAY,
      DataKey.WIND_CHILL, DataKey.HEAT_INDEX, DataKey.DEWPOINT, DataKey.WIND_DIR,
      DataKey.WIND_GUST_MPH, DataKey.WIND_MPH, DataKey.HUM_IN, DataKey.HUM_OUT]
    rw [dget_barTrendStore_ne hb (by simp)]
    simp only [dget_dset]
    norm_num [DataKey.BAR_SEA_LEVEL, DataKey.TIMESTAMP]
    rw [dget_copyFam_ne hf (by simp)]
    simp [hts]
  · intro q hq
    rw [hq] at hb
    simp only [barTrendStore, Option.getD_some, Option.some.injEq] at hb
    subst hb
    simp

theorem leafSoilBody_fields {stype dstv : ℤ} {d r out : Dict}
    (h : leafSoilBody stype dstv d r = some out) :
    ∃ v, dget d "ts" = some v ∧ dget out DataKey.TIMESTAMP = some v := by
  simp only [leafSoilBody, obind_eq_some, Option.some.injEq] at h
  obtain ⟨vts, hts, rf, hf, vb, hb, hout⟩ := h
  subst hout
  refine ⟨vts, hts, ?_⟩
  simp only [dget_dset]
  norm_num [DataKey.TIMESTAMP, DataKey.RX_STATE, DataKey.TRANS_BATTERY_FLAG]
  rw [dget_copyFam_ne hf (by simp)]
  simp [hts]

theorem airBody_fields {stype : ℤ} {d r out : Dict} (h : airBody stype d r = some out) :
    ∃ v, dget d "ts" = some v ∧ dget out DataKey.TIMESTAMP = some v := by
  simp only [airBody, obind_eq_some, Option.some.injEq] at h
  obtain ⟨vts, hts, v1, h1, v2, h2, v3, h3, v4, h4, v5, h5, p1, e1, p2, e2, p3, e3, p4, e4,
    p5, e5, p6, e6, p7, e7, p8, e8, p9, e9, p10, e10, p11, e11, p12, e12, p13, e13,
    p14, e14, p15, e15, p16, e16, p17, e17, hout⟩ := h
  subst hout
  exact ⟨vts, hts, by simp⟩

theorem processSensorV2_mono {primary : JVal} {st : Snap} {s : Sensor} {st' : Snap}
    (h : processSensorV2 primary st s = some st') {k : OutKey}
    (hk : containsKey st k = true) : containsKey st' k = true := by
  unfold processSensorV2 at h
  by_cases g1 : (s.sensor_type ∈ SENSOR_TYPE_VUE_AND_VANTAGE_PRO ∨ s.sensor_type = 55)
      ∧ s.data_structure_type = 10
  · rw [if_pos g1] at h
    simp only [obind_eq_some, Option.some.injEq] at h
    obtain ⟨d, hd, txv, htx, r, hr, r2, hr2, hout⟩ := h
    subst hout
    exact containsKey_sset_mono _ _ _ (containsKey_ssetdefault_mono _ hk)
  rw [if_neg g1] at h
  by_cases g2 : s.sensor_type ∈ SENSOR_TYPE_VUE_AND_VANTAGE_PRO ∧ s.data_structure_type = 2
  · rw [if_pos g2] at h
    simp only [obind_eq_some, Option.some.injEq] at h
    obtain ⟨d, hd, r, hr, r2, hr2, hout⟩ := h
    subst hout
    exact containsKey_sset_mono _ _ _ (containsKey_ssetdefault_mono _ hk)
  rw [if_neg g2] at h
  by_cases g3 : (s.sensor_type ∈ SENSOR_TYPE_VUE_AND_VANTAGE_PRO ∨ s.sensor_type = 55)
      ∧ s.data_structure_type = 23
  · rw [if_pos g3] at h
    simp only [obind_eq_some, Option.some.injEq] at h
    obtain ⟨d, hd, txv, htx, r, hr, r2, hr2, hout⟩ := h
    subst hout
    exact containsKey_sset_mono _ _ _ (containsKey_ssetdefault_mono _ hk)
  rw [if_neg g3] at h
  by_cases g4 : s.sensor_type = 56 ∧ s.data_structure_type = 12
  · rw [if_pos g4] at h
    simp only [obind_eq_some, Option.some.injEq] at h
    obtain ⟨d, hd, txv, htx, r, hr, r2, hr2, hout⟩ := h
    subst hout
    exact containsKey_sset_mono _ _ _ (containsKey_ssetdefault_mono _ hk)
  rw [if_neg g4] at h
  by_cases g5 : s.sensor_type = 56 ∧ s.data_structure_type = 25
  · rw [if_pos g5] at h
    simp only [obind_eq_some, Option.some.injEq] at h
    obtain ⟨d, hd, txv, htx, r, hr, r2, hr2, hout⟩ := h
    subst hout
    exact containsKey_sset_mono _ _ _ (containsKey_ssetdefault_mono _ hk)
  rw [if_neg g5] at h
  by_cases g6 : s.sensor_type = 365 ∧ s.data_structure_type = 21
  · rw [if_pos g6] at h
    simp only [obind_eq_some, Option.some.injEq] at h
    obtain ⟨d, hd, r, hr, r2, hr2, hout⟩ := h
    subst hout
    exact containsKey_sset_mono _ _ _ hk
  rw [if_neg g6] at h
  by_cases g7 : s.sensor_type = 243 ∧ s.data_structure_type = 12
  · rw [if_pos g7] at h
    simp only [obind_eq_some, Option.some.injEq] at h
    obtain ⟨d, hd, r, hr, r2, hr2, hout⟩ := h
    subst hout
    exact containsKey_sset_mono _ _ _ hk
  rw [if_neg g7] at h
  by_cases g8 : s.sensor_type = 242 ∧ s.data_structure_type = 12
  · rw [if_pos g8] at h
    simp only [obind_eq_some, Option.some.injEq] at h
    obtain ⟨d, hd, r, hr, r2, hr2, hout⟩ := h
    subst hout
    exact containsKey_sset_mono _ _ _ hk
  rw [if_neg g8] at h
  by_cases g9 : s.sensor_type = 242 ∧ s.data_structure_type = 19
  · rw [if_pos g9] at h
    simp only [obind_eq_some, Option.some.injEq] at h
    obtain ⟨d, hd, r, hr, r2, hr2, hout⟩ := h
    subst hout
    exact containsKey_sset_mono _ _ _ hk
  rw [if_neg g9] at h
  by_cases g10 : s.sensor_type ∈ SENSOR_TYPE_AIRLINK ∧ s.data_structure_type = 16
  · rw [if_pos g10] at h
    simp only [obind_eq_some, Option.some.injEq] at h
    obtain ⟨d, hd, lv, hl, r, hr, r2, hr2, hout⟩ := h
    subst hout
    exact containsKey_sset_mono _ _ _ (containsKey_ssetdefault_mono _ hk)
  rw [if_neg g10] at h
  simp only [Option.some.injEq] at h
  subst h
  exact hk

theorem runSensors_preserve {primary : JVal} {P : Snap → Prop}
    (hstep : ∀ st s st', processSensorV2 primary st s = some st' → P st → P st') :
    ∀ l (st st' : Snap), runSensors primary st l = some st' → P st → P st'
  | [], st, st', h, hp => by
    simp only [runSensors, Option.some.injEq] at h
    exact h ▸ hp
  | s :: rest, st, st', h, hp => by
    simp only [runSensors, obind_eq_some] at h
    obtain ⟨st1, hx, h⟩ := h
    exact runSensors_preserve hstep rest st1 st' h (hstep st s st1 hx hp)

theorem processSensorV2_unrecognized {primary : JVal} {st : Snap} {s : Sensor}
    (h : ¬ recognizedPair s.sensor_type s.data_structure_type) :
    processSensorV2 primary st s = some st := by
  unfold recognizedPair at h
  simp only [not_or] at h
  obtain ⟨h1, h2, h3, h4, h5, h6, h7, h8, h9, h10⟩ := h
  unfold processSensorV2
  rw [if_neg h1, if_neg h2, if_neg h3, if_neg h4, if_neg h5, if_neg h6, if_neg h7,
    if_neg h8, if_neg h9, if_neg h10]

theorem processSensorV2_tsInvariant {primary : JVal} {st : Snap} {s : Sensor} {st' : Snap}
    (h : processSensorV2 primary st s = some st')
    (hinv : tsInvariant primary st) : tsInvariant primary st' := by
  unfold processSensorV2 at h
  by_cases g1 : (s.sensor_type ∈ SENSOR_TYPE_VUE_AND_VANTAGE_PRO ∨ s.sensor_type = 55)
      ∧ s.data_structure_type = 10
  · rw [if_pos g1] at h
    simp only [obind_eq_some, Option.some.injEq] at h
    obtain ⟨d, hd, txv, htx, r, hr, r2, hr2, hout⟩ := h
    subst hout
    intro t ht e he
    rw [sget_sset] at he
    by_cases htt : OutKey.tx t = OutKey.tx txv
    · rw [if_pos htt] at he
      simp only [Option.some.injEq] at he
      subst he
      obtain ⟨v, _, hv2⟩ := (vueBody10_fields hr2).1
      exact ⟨r2, rfl, by rw [hv2]; rfl⟩
    · rw [if_neg htt, sget_ssetdefault_ne _ htt] at he
      exact hinv t ht e he
  rw [if_neg g1] at h
  by_cases g2 : s.sensor_type ∈ SENSOR_TYPE_VUE_AND_VANTAGE_PRO ∧ s.data_structure_type = 2
  · rw [if_pos g2] at h
    simp only [obind_eq_some, Option.some.injEq] at h
    obtain ⟨d, hd, r, hr, r2, hr2, hout⟩ := h
    subst hout
    intro t ht e he
    rw [sget_sset] at he
    by_cases htt : OutKey.tx t = OutKey.tx ((dget d "tx_id").getD (JVal.num 1))
    · rw [if_pos htt] at he
      simp only [Option.some.injEq] at he
      subst he
      obtain ⟨v, _, hv2⟩ := (vanBody2_fields hr2).1
      exact ⟨r2, rfl, by rw [hv2]; rfl⟩
    · rw [if_neg htt, sget_ssetdefault_ne _ htt] at he
      exact hinv t ht e he
  rw [if_neg g2] at h
  by_cases g3 : (s.sensor_type ∈ SENSOR_TYPE_VUE_AND_VANTAGE_PRO ∨ s.sensor_type = 55)
      ∧ s.data_structure_type = 23
  · rw [if_pos g3] at h
    simp only [obind_eq_some, Option.some.injEq] at h
    obtain ⟨d, hd, txv, htx, r, hr, r2, hr2, hout⟩ := h
    subst hout
    intro t ht e he
    rw [sget_sset] at he
    by_cases htt : OutKey.tx t = OutKey.tx txv
    · rw [if_pos htt] at he
      simp only [Option.some.injEq] at he
      subst he
      obtain ⟨v, _, hv2⟩ := (vueBody23_fields hr2).1
      exact ⟨r2, rfl, by rw [hv2]; rfl⟩
    · rw [if_neg htt, sget_ssetdefault_ne _ htt] at he
      exact hinv t ht e he
  rw [if_neg g3] at h
  by_cases g4 : s.sensor_type = 56 ∧ s.data_structure_type = 12
  · rw [if_pos g4] at h
    simp only [obind_eq_some, Option.some.injEq] at h
    obtain ⟨d, hd, txv, htx, r, hr, r2, hr2, hout⟩ := h
    subst hout
    intro t ht e he
    rw [sget_sset] at he
    by_cases htt : OutKey.tx t = OutKey.tx txv
    · rw [if_pos htt] at he
      simp only [Option.some.injEq] at he
      subst he
      obtain ⟨v, _, hv2⟩ := leafSoilBody_fields hr2
      exact ⟨r2, rfl, by rw [hv2]; rfl⟩
    · rw [if_neg htt, sget_ssetdefault_ne _ htt] at he
      exact hinv t ht e he
  rw [if_neg g4] at h
  by_cases g5 : s.sensor_type = 56 ∧ s.data_structure_type = 25
  · rw [if_pos g5] at h
    simp only [obind_eq_some, Option.some.injEq] at h
    obtain ⟨d, hd, txv, htx, r, hr, r2, hr2, hout⟩ := h
    subst hout
    intro t ht e he
    rw [sget_sset] at he
    by_cases htt : OutKey.tx t = OutKey.tx txv
    · rw [if_pos htt] at he
      simp only [Option.some.injEq] at he
      subst he
      obtain ⟨v, _, hv2⟩ := leafSoilBody_fields hr2
      exact ⟨r2, rfl, by rw [hv2]; rfl⟩
    · rw [if_neg htt, sget_ssetdefault_ne _ htt] at he
      exact hinv t ht e he
  rw [if_neg g5] at h
  by_cases g6 : s.sensor_type = 365 ∧ s.data_structure_type = 21
  · rw [if_pos g6] at h
    simp only [obind_eq_some, Option.some.injEq] at h
    obtain ⟨d, hd, r, hr, r2, hr2, hout⟩ := h
    subst hout
    intro t ht e he
    rw [sget_sset, if_neg (fun hx => ht (OutKey.tx.injEq t primary ▸ hx))] at he
    exact hinv t ht e he
  rw [if_neg g6] at h
  by_cases g7 : s.sensor_type = 243 ∧ s.data_structure_type = 12
  · rw [if_pos g7] at h
    simp only [obind_eq_some, Option.some.injEq] at h
    obtain ⟨d, hd, r, hr, r2, hr2, hout⟩ := h
    subst hout
    intro t ht e he
    rw [sget_sset, if_neg (fun hx => ht (OutKey.tx.injEq t primary ▸ hx))] at he
    exact hinv t ht e he
  rw [if_neg g7] at h
  by_cases g8 : s.sensor_type = 242 ∧ s.data_structure_type = 12
  · rw [if_pos g8] at h
    simp only [obind_eq_some, Option.some.injEq] at h
    obtain ⟨d, hd, r, hr, r2, hr2, hout⟩ := h
    subst hout
    intro t ht e he
    rw [sget_sset, if_neg (fun hx => ht (OutKey.tx.injEq t primary ▸ hx))] at he
    exact hinv t ht e he
  rw [if_neg g8] at h
  by_cases g9 : s.sensor_type = 242 ∧ s.data_structure_type = 19
  · rw [if_pos g9] at h
    simp only [obind_eq_some, Option.some.injEq] at h
    obtain ⟨d, hd, r, hr, r2, hr2, hout⟩ := h
    subst hout
    intro t ht e he
    rw [sget_sset, if_neg (fun hx => ht (OutKey.tx.injEq t primary ▸ hx))] at he
    exact hinv t ht e he
  rw [if_neg g9] at h
  by_cases g10 : s.sensor_type ∈ SENSOR_TYPE_AIRLINK ∧ s.data_structure_type = 16
  · rw [if_pos g10] at h
    simp only [obind_eq_some, Option.some.injEq] at h
    obtain ⟨d, hd, lv, hl, r, hr, r2, hr2, hout⟩ := h
    subst hout
    intro t ht e he
    rw [sget_sset] at he
    by_cases htt : OutKey.tx t = OutKey.tx lv
    · rw [if_pos htt] at he
      simp only [Option.some.injEq] at he
      subst he
      obtain ⟨v, _, hv2⟩ := airBody_fields hr2
      exact ⟨r2, rfl, by rw [hv2]; rfl⟩
    · rw [if_neg htt, sget_ssetdefault_ne _ htt] at he
      exact hinv t ht e he
  rw [if_neg g10] at h
  simp only [Option.some.injEq] at h
  subst h
  exact hinv

theorem processSensorV2_txid_missing {primary : JVal} {st : Snap} {s : Sensor} {d : Dict}
    (hmem : s.sensor_type ∈ SENSOR_TYPE_VUE_AND_VANTAGE_PRO ∨ s.sensor_type = 55)
    (hdst : s.data_structure_type = 10 ∨ s.data_structure_type = 23)
    (hd : s.data.head? = some d) (htx : dget d "tx_id" = none) :
    processSensorV2 primary st s = none := by
  unfold processSensorV2
  rcases hdst with hdst | hdst
  · rw [if_pos ⟨hmem, hdst⟩]
    simp [obind, hd, htx]
  · rw [if_neg (by rintro ⟨-, h2⟩; rw [hdst] at h2; exact absurd h2 (by decide)),
      if_neg (by rintro ⟨-, h2⟩; rw [hdst] at h2; exact absurd h2 (by decide)),
      if_pos ⟨hmem, hdst⟩]
    simp [obind, hd, htx]

/-! ### The claims -/

/-- **C5**: a sensor record whose `(sensor_type, data_structure_type)`
pair matches no recognized mapping rule contributes nothing and causes
no error: the loop iteration is the identity on the snapshot, and
normalizing a payload containing such a record gives exactly the result
of normalizing the payload without it. -/
theorem c5_unrecognized_skipped (primary : JVal) (u : Option JVal)
    (l1 l2 : List Sensor) (s : Sensor)
    (h : ¬ recognizedPair s.sensor_type s.data_structure_type) :
    (∀ st : Snap, processSensorV2 primary st s = some st) ∧
    preprocessV2 primary ⟨u, l1 ++ s :: l2⟩ = preprocessV2 primary ⟨u, l1 ++ l2⟩ := by
  refine ⟨fun st => processSensorV2_unrecognized h, ?_⟩
  unfold preprocessV2
  cases initSnap primary u with
  | none => simp [obind]
  | some st0 =>
    simp only [obind]
    rw [runSensors_append, runSensors_append]
    cases runSensors primary st0 l1 with
    | none => simp [obind]
    | some st1 =>
      simp [obind, runSensors, processSensorV2_unrecognized h]

theorem c5_witness :
    (∀ st : Snap, processSensorV2 (JVal.num 1) st ⟨999, 99, none, []⟩ = some st) ∧
    preprocessV2 (JVal.num 1) ⟨some (JVal.str "u"), [] ++ (⟨999, 99, none, []⟩ : Sensor) :: []⟩ =
      preprocessV2 (JVal.num 1) ⟨some (JVal.str "u"), [] ++ []⟩ :=
  c5_unrecognized_skipped (JVal.num 1) (some (JVal.str "u")) [] [] ⟨999, 99, none, []⟩
    (by decide)

/-- **C10**: a successfully normalized modern-shape snapshot always
contains the record keyed by the configured primary transmitter id
(created up front by `outdata.setdefault(primary_tx_id, {})`, possibly
left empty) and the top-level UUID entry, whatever the payload's
sensors are. -/
theorem c10_primary_and_uuid_present (primary : JVal) (p : V2Payload) (out : Snap)
    (h : preprocessV2 primary p = some out) :
    containsKey out (OutKey.tx primary) = true ∧ containsKey out OutKey.uuid = true := by
  unfold preprocessV2 at h
  rw [obind_eq_some] at h
  obtain ⟨st0, h0, hrun⟩ := h
  have hkeys : containsKey st0 (OutKey.tx primary) = true ∧ containsKey st0 OutKey.uuid = true := by
    unfold initSnap at h0
    simp only [obind_eq_some, Option.some.injEq] at h0
    obtain ⟨uv, hu, h0⟩ := h0
    subst h0
    exact ⟨containsKey_sset_mono _ _ _ (containsKey_ssetdefault_self _ _),
      by unfold containsKey; simp⟩
  exact ⟨runSensors_preserve (fun st s st' hs hp => processSensorV2_mono hs hp) _ _ _
      hrun hkeys.1,
    runSensors_preserve (fun st s st' hs hp => processSensorV2_mono hs hp) _ _ _
      hrun hkeys.2⟩

theorem c10_witness :
    containsKey ((preprocessV2 (JVal.num 1) p365Ex).getD []) (OutKey.tx (JVal.num 1)) = true ∧
    containsKey ((preprocessV2 (JVal.num 1) p365Ex).getD []) OutKey.uuid = true :=
  c10_primary_and_uuid_present (JVal.num 1) p365Ex _ rfl

/-- **C1** (counterexample): in the payload `[sBadEx, sAirEx]` the
first sensor record has a recognized pair but lacks the required `ts`
field; the claim says the error is scoped to that record and the
AirLink record is still processed, but the code raises out of the whole
pass: `_preprocess` yields no snapshot at all, while the same payload
without the bad record yields a snapshot containing the AirLink
transmitter `99`. -/
theorem c1_counterexample :
    preprocessV2 (JVal.num 1) ⟨some (JVal.str "u"), [sBadEx, sAirEx]⟩ = none ∧
    (preprocessV2 (JVal.num 1) pAirEx).map
      (fun st => containsKey st (OutKey.tx (JVal.num 99))) = some true :=
  ⟨rfl, rfl⟩

/-- **C1** (amended): an error caused by one sensor record whose
recognized pair is missing a required field aborts the whole
normalization pass — the exception propagates out of the sensor loop
(there is no per-record handler), no snapshot is produced, and the
remaining sensor records are not processed. -/
theorem c1_amended (primary : JVal) (u : Option JVal) (pre post : List Sensor) (s : Sensor)
    (st0 st1 : Snap) (h0 : initSnap primary u = some st0)
    (h1 : runSensors primary st0 pre = some st1)
    (h2 : processSensorV2 primary st1 s = none) :
    preprocessV2 primary ⟨u, pre ++ s :: post⟩ = none := by
  unfold preprocessV2
  simp only [h0, obind]
  rw [runSensors_append, h1]
  simp only [obind, runSensors, h2]

theorem c1_amended_witness :
    preprocessV2 (JVal.num 1) ⟨some (JVal.str "u"), [] ++ sBadEx :: [sAirEx]⟩ = none :=
  c1_amended (JVal.num 1) (some (JVal.str "u")) [] [sAirEx] sBadEx
    ((initSnap (JVal.num 1) (some (JVal.str "u"))).getD [])
    ((initSnap (JVal.num 1) (some (JVal.str "u"))).getD []) rfl rfl rfl

/-- **C2** (counterexample): a payload whose only sensor is the indoor
temperature/humidity satellite (`sensor_type 365`, structure 21) yields
a snapshot whose primary transmitter record contains the observation
fields `TEMP_IN`/`HUM_IN` but no `TIMESTAMP` field, refuting the
invariant that any transmitter with sensor data seen has a timestamp. -/
theorem c2_counterexample :
    ((preprocessV2 (JVal.num 1) p365Ex).bind
        (fun st => sgetRec st (OutKey.tx (JVal.num 1)))).map
      (fun rr => (dget rr DataKey.TEMP_IN, dget rr DataKey.TIMESTAMP)) =
      some (some (JVal.num 70), none) := rfl

/-- **C2** (amended): the invariant holds for every transmitter id
other than the configured primary id — each rule keying a record by the
sensor's own `tx_id` or `lsid` stores the record's `ts` — while the
primary record is created empty up front and the `365`/`243`/`242`
satellite rules write observation fields into it without a timestamp. -/
theorem c2_amended (primary : JVal) (p : V2Payload) (out : Snap)
    (h : preprocessV2 primary p = some out) (t : JVal) (ht : t ≠ primary) {e : Entry}
    (he : sget out (OutKey.tx t) = some e) :
    ∃ rr, e = Entry.recd rr ∧ (dget rr DataKey.TIMESTAMP).isSome = true := by
  unfold preprocessV2 at h
  rw [obind_eq_some] at h
  obtain ⟨st0, h0, hrun⟩ := h
  have hinv0 : tsInvariant primary st0 := by
    unfold initSnap at h0
    simp only [obind_eq_some, Option.some.injEq] at h0
    obtain ⟨uv, hu, h0⟩ := h0
    subst h0
    intro t' ht' e' he'
    simp [sset, ssetdefault, sget, ht'] at he'
  exact runSensors_preserve (fun st s st' hs hp => processSensorV2_tsInvariant hs hp)
    _ _ _ hrun hinv0 t ht e he

theorem c2_amended_witness :
    ∃ rr, (sget ((preprocessV2 (JVal.num 1) pAirEx).getD [])
        (OutKey.tx (JVal.num 99))).getD (Entry.val JVal.null) = Entry.recd rr ∧
      (dget rr DataKey.TIMESTAMP).isSome = true :=
  c2_amended (JVal.num 1) pAirEx _ rfl (JVal.num 99) (by decide) rfl

/-- **C3**: with a successful last coordinator update, the availability
check returns `True` exactly when the record has a (numeric) timestamp
whose age in minutes is strictly below the configured threshold; a
record 59 minutes old against a 60-minute threshold is available, one
exactly 60 minutes old is not, and a record with no timestamp never
yields `True` (the access raises instead of returning a value). -/
theorem c3_availability (tsf : Option JVal) (now threshold : ℚ) :
    (wlAvailable true tsf now threshold = some true ↔
      ∃ ts : ℚ, tsf = some (JVal.num ts) ∧ (now - ts) / 60 < threshold) ∧
    (∀ ts : ℚ, now - ts = 3540 → wlAvailable true (some (JVal.num ts)) now 60 = some true) ∧
    (∀ ts : ℚ, now - ts = 3600 → wlAvailable true (some (JVal.num ts)) now 60 = some false) ∧
    wlAvailable true none now threshold ≠ some true := by
  refine ⟨⟨?_, ?_⟩, ?_, ?_, ?_⟩
  · intro h
    unfold wlAvailable at h
    rcases tsf with _ | v
    · simp at h
    rcases v with q | s | _
    · exact ⟨q, rfl, by simpa using h⟩
    · simp at h
    · simp at h
  · rintro ⟨ts, rfl, hlt⟩
    unfold wlAvailable
    simp [hlt]
  · intro ts h
    unfold wlAvailable
    simp only [Bool.true_eq_false, if_false, Option.some.injEq, decide_eq_true_eq, if_neg]
    rw [h]
    norm_num
  · intro ts h
    unfold wlAvailable
    simp only [Bool.true_eq_false, if_false, Option.some.injEq, if_neg]
    rw [h]
    norm_num
  · unfold wlAvailable
    simp

theorem c3_witness :
    wlAvailable true (some (JVal.num 0)) 3540 60 = some true :=
  (c3_availability (some (JVal.num 0)) 3540 60).2.1 0 (by norm_num)

/-- **C7**: the pressure-trend classification maps a numeric trend to
exactly one of the five categories by the fixed breakpoints
(`≥ 0.060`, `≥ 0.020`, `> -0.020`, `> -0.060`, else), and a
descriptive string (one not accepted by `float`) to the string
lower-cased with spaces replaced by underscores, so
`classify("Falling Rapidly") = "falling_rapidly"`;
`classify(0.07) = "rising_rapidly"`, `classify(0.0) = "steady"`,
`classify(-0.07) = "falling_rapidly"`. -/
theorem c7_pressure_trend (isFloatStr : String → Bool) :
    (∀ q : ℚ, classifyTrend isFloatStr (some (TrendVal.num q)) =
      some (if q ≥ 6 / 100 then "rising_rapidly"
        else if q ≥ 2 / 100 then "rising_slowly"
        else if q > -(2 / 100) then "steady"
        else if q > -(6 / 100) then "falling_slowly"
        else "falling_rapidly")) ∧
    (∀ s : String, isFloatStr s = false →
      classifyTrend isFloatStr (some (TrendVal.str s)) =
        some (pyUnderscore (pyLower s))) ∧
    (isFloatStr "Falling Rapidly" = false →
      classifyTrend isFloatStr (some (TrendVal.str "Falling Rapidly")) =
        some "falling_rapidly") ∧
    classifyTrend isFloatStr (some (TrendVal.num (7 / 100))) = some "rising_rapidly" ∧
    classifyTrend isFloatStr (some (TrendVal.num 0)) = some "steady" ∧
    classifyTrend isFloatStr (some (TrendVal.num (-(7 / 100)))) = some "falling_rapidly" := by
  refine ⟨?_, ?_, ?_, ?_, ?_, ?_⟩
  · intro q
    simp only [classifyTrend]
    split_ifs <;> rfl
  · intro s hs
    simp only [classifyTrend]
    rw [if_neg (by simp [hs])]
  · intro hs
    simp only [classifyTrend]
    rw [if_neg (by simp [hs])]
    rfl
  · simp only [classifyTrend]
    norm_num
  · simp only [classifyTrend]
    norm_num
  · simp only [classifyTrend]
    norm_num

theorem c7_witness :
    classifyTrend (fun _ => false) (some (TrendVal.str "Falling Rapidly")) =
      some "falling_rapidly" :=
  (c7_pressure_trend (fun _ => false)).2.2.1 rfl

theorem pymod_nonneg (x : ℚ) : 0 ≤ pymod x 360 := by
  unfold pymod
  have h : ((Int.floor (x / 360) : ℤ) : ℚ) ≤ x / 360 := Int.floor_le _
  have h2 : (360 : ℚ) * ((Int.floor (x / 360) : ℤ) : ℚ) ≤ 360 * (x / 360) :=
    mul_le_mul_of_nonneg_left h (by norm_num)
  have h3 : (360 : ℚ) * (x / 360) = x := by ring
  linarith

theorem pymod_lt (x : ℚ) : pymod x 360 < 360 := by
  unfold pymod
  have h : x / 360 < ((Int.floor (x / 360) : ℤ) : ℚ) + 1 := Int.lt_floor_add_one _
  have h2 : (360 : ℚ) * (x / 360) < 360 * (((Int.floor (x / 360) : ℤ) : ℚ) + 1) :=
    (mul_lt_mul_left (by norm_num)).mpr h
  have h3 : (360 : ℚ) * (x / 360) = x := by ring
  linarith

theorem compassIndex_nonneg (deg : ℚ) : 0 ≤ compassIndex deg := by
  unfold compassIndex
  apply Int.le_floor.mpr
  push_cast
  exact div_nonneg (pymod_nonneg _) (by norm_num)

theorem compassIndex_lt (deg : ℚ) : compassIndex deg < 16 := by
  unfold compassIndex
  apply Int.floor_lt.mpr
  have h := pymod_lt (deg + 45 / 4)
  rw [div_lt_iff₀ (by norm_num : (0 : ℚ) < 45 / 2)]
  push_cast
  linarith

theorem pymod_add_360 (x : ℚ) : pymod (x + 360) 360 = pymod x 360 := by
  unfold pymod
  have h : (x + 360) / 360 = x / 360 + 1 := by ring
  rw [h, Int.floor_add_one]
  push_cast
  ring

theorem compassIndex_period (deg : ℚ) : compassIndex (deg + 360) = compassIndex deg := by
  unfold compassIndex
  rw [show deg + 360 + 45 / 4 = deg + 45 / 4 + 360 by ring, pymod_add_360]

/-- **C6**: the compass bucket is, for every degree value in
`[0, 360)`, the label at position `⌊((deg + 11.25) mod 360) / 22.5⌋`
of the 16-element clockwise list starting at `n` (and such a label
always exists); it is periodic with period 360; `bucket(0) = "n"`,
`bucket(90) = "e"`, `bucket(180) = "s"`, `bucket(270) = "w"`,
`bucket(348.75) = bucket(11.24) = "n"`; and an absent (`null`) degree
value yields `None`. -/
theorem c6_compass :
    (∀ deg : ℚ, 0 ≤ deg → deg < 360 →
      compassBucket (some deg) =
        directions.get? (Int.floor (pymod (deg + 45 / 4) 360 / (45 / 2))).toNat ∧
      (compassBucket (some deg)).isSome = true) ∧
    (∀ deg : ℚ, compassBucket (some (deg + 360)) = compassBucket (some deg)) ∧
    compassBucket (some 0) = some "n" ∧
    compassBucket (some 90) = some "e" ∧
    compassBucket (some 180) = some "s" ∧
    compassBucket (some 270) = some "w" ∧
    compassBucket (some (1395 / 4)) = some "n" ∧
    compassBucket (some (281 / 25)) = some "n" ∧
    compassBucket none = none := by
  have hlen : ∀ deg : ℚ, (compassIndex deg).toNat < directions.length := by
    intro deg
    have h1 := compassIndex_nonneg deg
    have h2 := compassIndex_lt deg
    simp only [directions, List.length]
    omega
  have hval : ∀ (deg : ℚ) (n : ℕ), compassIndex deg = n →
      compassBucket (some deg) = directions.get? n := by
    intro deg n h
    simp [compassBucket, h]
  refine ⟨fun deg h0 h360 => ⟨rfl, ?_⟩, fun deg => ?_, ?_, ?_, ?_, ?_, ?_, ?_, rfl⟩
  · simp only [compassBucket]
    rw [List.get?_eq_get (hlen deg)]
    rfl
  · simp only [compassBucket]
    rw [compassIndex_period]
  · rw [hval 0 0 (by norm_num [compassIndex, pymod])]
    rfl
  · rw [hval 90 4 (by norm_num [compassIndex, pymod])]
    rfl
  · rw [hval 180 8 (by norm_num [compassIndex, pymod])]
    rfl
  · rw [hval 270 12 (by norm_num [compassIndex, pymod])]
    rfl
  · rw [hval (1395 / 4) 0 (by norm_num [compassIndex, pymod])]
    rfl
  · rw [hval (281 / 25) 0 (by norm_num [compassIndex, pymod])]
    rfl

theorem c6_witness :
    compassBucket (some 0) = directions.get? (Int.floor (pymod (0 + 45 / 4) 360 / (45 / 2))).toNat ∧
    (compassBucket (some 0)).isSome = true :=
  c6_compass.1 0 (by norm_num) (by norm_num)

/-- **C4**: for every sensor record matched by a weather-data rule
(structure 10 or 23), the optional rainfall accumulation field
`rainfall_last_15_min_in` — a field covered by the zero-default policy
— is stored as canonical value `0` both when it is absent and when it
is present with value `null`; the timestamp field is stored verbatim
from the record's `ts` (never defaulted to zero), and a missing
identity field `tx_id` makes the pass raise rather than default. -/
theorem c4_zero_default :
    (∀ (stype : ℤ) (d r out : Dict), vueBody10 stype d r = some out →
      ((dget d "rainfall_last_15_min_in" = none ∨
          dget d "rainfall_last_15_min_in" = some JVal.null) →
        dget out DataKey.RAIN_DAY_15M = some (JVal.num 0)) ∧
      (∃ v, dget d "ts" = some v ∧ dget out DataKey.TIMESTAMP = some v)) ∧
    (∀ (stype : ℤ) (d r out : Dict), vueBody23 stype d r = some out →
      ((dget d "rainfall_last_15_min_in" = none ∨
          dget d "rainfall_last_15_min_in" = some JVal.null) →
        dget out DataKey.RAIN_DAY_15M = some (JVal.num 0)) ∧
      (∃ v, dget d "ts" = some v ∧ dget out DataKey.TIMESTAMP = some v)) ∧
    (∀ (primary : JVal) (st : Snap) (s : Sensor) (d : Dict),
      (s.sensor_type ∈ SENSOR_TYPE_VUE_AND_VANTAGE_PRO ∨ s.sensor_type = 55) →
      (s.data_structure_type = 10 ∨ s.data_structure_type = 23) →
      s.data.head? = some d → dget d "tx_id" = none →
      processSensorV2 primary st s = none) := by
  refine ⟨fun stype d r out h => ⟨?_, (vueBody10_fields h).1⟩,
    fun stype d r out h => ⟨?_, (vueBody23_fields h).1⟩,
    fun primary st s d hmem hdst hd htx =>
      processSensorV2_txid_missing hmem hdst hd htx⟩
  · intro h15
    rw [(vueBody10_fields h).2]
    rcases h15 with h15 | h15 <;> rw [h15] <;> rfl
  · intro h15
    rw [(vueBody23_fields h).2]
    rcases h15 with h15 | h15 <;> rw [h15] <;> rfl

theorem c4_witness :
    dget ((vueBody10 37 d10Ex []).getD []) DataKey.RAIN_DAY_15M = some (JVal.num 0) ∧
    ∃ v, dget d10Ex "ts" = some v ∧
      dget ((vueBody10 37 d10Ex []).getD []) DataKey.TIMESTAMP = some v :=
  ⟨(c4_zero_default.1 37 d10Ex [] ((vueBody10 37 d10Ex []).getD []) rfl).1 (Or.inl rfl),
   (c4_zero_default.1 37 d10Ex [] ((vueBody10 37 d10Ex []).getD []) rfl).2⟩

/-- **C8**: a successfully normalized legacy-shape payload has exactly
one transmitter id, `1`, and its record's timestamp is the payload's
RFC-822 observation-time string fed through the (external) RFC-822 →
epoch-seconds parser. -/
theorem c8_legacy (parse : String → Option ℤ) (p : V1Payload) (out : Snap)
    (h : preprocessV1 parse p = some out) :
    (∀ k, containsKey out k = true ↔ k = OutKey.tx (JVal.num 1)) ∧
    ∃ (s : String) (t : ℤ),
      dget p.top "observation_time_rfc822" = some (JVal.str s) ∧ parse s = some t ∧
      (sgetRec out (OutKey.tx (JVal.num 1))).map
        (fun rr => dget rr DataKey.TIMESTAMP) = some (some (JVal.num (t : ℚ))) := by
  unfold preprocessV1 at h
  simp only [obind_eq_some, Option.some.injEq] at h
  obtain ⟨dco, hdco, obs, hobs, t, hmatch, hout⟩ := h
  subst hout
  rcases obs with q | sstr | _
  · exact absurd hmatch (by simp)
  · constructor
    · intro k
      by_cases hk : k = OutKey.tx (JVal.num 1) <;>
        simp [containsKey, sget, sset, ssetdefault, hk]
    · refine ⟨sstr, t, hobs, by simpa using hmatch, ?_⟩
      simp [sgetRec, sget, sset, ssetdefault]
  · exact absurd hmatch (by simp)

theorem c8_witness :
    (∀ k, containsKey ((preprocessV1 parseEx pV1Ex).getD []) k = true ↔
      k = OutKey.tx (JVal.num 1)) ∧
    ∃ (s : String) (t : ℤ),
      dget pV1Ex.top "observation_time_rfc822" = some (JVal.str s) ∧ parseEx s = some t ∧
      (sgetRec ((preprocessV1 parseEx pV1Ex).getD []) (OutKey.tx (JVal.num 1))).map
        (fun rr => dget rr DataKey.TIMESTAMP) = some (some (JVal.num (t : ℚ))) :=
  c8_legacy parseEx pV1Ex ((preprocessV1 parseEx pV1Ex).getD []) rfl

/-- **C9** (counterexample): feeding a structure-23 sensor record with
`hdd_day = 18` stores, at normalization time, both the raw value and a
Celsius value `18 * 5 / 9 = 10` — a third unit/scale transform that is
neither the structure-2 `bar_trend / 1000` nor the structure-23
`solar_energy_day * 11.622`, refuting "exactly two transforms". -/
theorem c9_counterexample :
    ((preprocessV2 (JVal.num 1) p23Ex).bind
        (fun st => sgetRec st (OutKey.tx (JVal.num 2)))).map
      (fun rr => (dget rr DataKey.HDDF_DAY, dget rr DataKey.HDDC_DAY)) =
      some (some (JVal.num 18), some (JVal.num (18 * 5 / 9))) ∧
    (18 : ℚ) * 5 / 9 = 10 ∧
    (10 : ℚ) ≠ 18 ∧ (10 : ℚ) ≠ 18 / 1000 ∧ (10 : ℚ) ≠ 18 * (5811 / 500) :=
  ⟨rfl, by norm_num, by norm_num, by norm_num, by norm_num⟩

/-- **C9** (amended): normalization applies the two named transforms as
stated — a structure-2 record stores `bar_trend / 1000` and a
structure-23 record stores `solar_energy_day * 11.622` whenever the
raw value is a number — and additionally converts heating and cooling
degree-days to Celsius (`* 5 / 9`) at normalization time in
structure-23 records. -/
theorem c9_amended :
    (∀ (stype : ℤ) (d r out : Dict) (q : ℚ), vanBody2 stype d r = some out →
      dget d "bar_trend" = some (JVal.num q) →
      dget out DataKey.BAR_TREND = some (JVal.num (q / 1000))) ∧
    (∀ (stype : ℤ) (d r out : Dict) (q : ℚ), vueBody23 stype d r = some out →
      dget d "solar_energy_day" = some (JVal.num q) →
      dget out DataKey.SOLAR_ENERGY = some (JVal.num (q * (5811 / 500)))) ∧
    (∀ (stype : ℤ) (d r out : Dict) (q : ℚ), vueBody23 stype d r = some out →
      dget d "hdd_day" = some (JVal.num q) →
      dget out DataKey.HDDF_DAY = some (JVal.num q) ∧
      dget out DataKey.HDDC_DAY = some (JVal.num (q * 5 / 9))) ∧
    (∀ (stype : ℤ) (d r out : Dict) (q : ℚ), vueBody23 stype d r = some out →
      dget d "cdd_day" = some (JVal.num q) →
      dget out DataKey.CDDF_DAY = some (JVal.num q) ∧
      dget out DataKey.CDDC_DAY = some (JVal.num (q * 5 / 9))) :=
  ⟨fun _ _ _ _ q h hq => (vanBody2_fields h).2 q hq,
   fun _ _ _ _ q h hq => (vueBody23_transforms h).1 q hq,
   fun _ _ _ _ q h hq => (vueBody23_transforms h).2.1 q hq,
   fun _ _ _ _ q h hq => (vueBody23_transforms h).2.2 q hq⟩

theorem c9_witness :
    dget ((vanBody2 23 d2Ex []).getD []) DataKey.BAR_TREND =
      some (JVal.num (500 / 1000)) ∧
    dget ((vueBody23 37 d23Ex []).getD []) DataKey.HDDC_DAY =
      some (JVal.num (18 * 5 / 9)) :=
  ⟨c9_amended.1 23 d2Ex [] ((vanBody2 23 d2Ex []).getD []) 500 rfl rfl,
   (c9_amended.2.2.1 37 d23Ex [] ((vueBody23 37 d23Ex []).getD []) 18 rfl rfl).2⟩
